import Mathlib

set_option maxRecDepth 100000

/-!
Verification of the ChildrenTaskRewardChart repository.

The development shallowly embeds the core business logic of the repository:

* `App` — the kiosk variant in `src/app` (`app/domain/services.py`,
  `app/domain/seed.py`, `app/data/models.py`): children, recurring task
  templates, per-day task instances, settings, daily rollover, the task
  state machine and the display-state aggregator.
* `Kiosk` — the wallet variant in `src/home_rewards_kiosk`
  (`wallet_service.py`, `cashout_service.py`).

Database tables are lists of records; the SQLAlchemy session is modelled by
explicit state passing, where every function returns the committed database
state (an operation that returns an error before its `session.commit()`
leaves the committed state unchanged, matching the session-per-request
teardown).  `datetime.date.today()` / `datetime.datetime.utcnow()` are
modelled by an explicit `Clock` argument.  Primary keys are assigned from
explicit `next_*_id` counters.
-/

namespace App

/-- Generic stable insertion used to model Python's stable `sorted` and the
SQL `ORDER BY` queries: `a` is inserted after every element strictly smaller
under `lt`, so elements comparing equal keep their original order. -/
def insStable (lt : α → α → Bool) (a : α) : List α → List α
  | [] => [a]
  | b :: l => if lt b a then b :: insStable lt a l else a :: b :: l

/-- Stable insertion sort by the strict comparison `lt`. -/
def sortStable (lt : α → α → Bool) : List α → List α
  | [] => []
  | a :: l => insStable lt a (sortStable lt l)

/-- Replace the first element satisfying `p` by `f` of it (SQLAlchemy
mutation of the single row returned by `session.get`). -/
def replaceFirstBy (p : α → Bool) (f : α → α) : List α → List α
  | [] => []
  | a :: l => if p a then f a :: l else a :: replaceFirstBy p f l

/-- Delete the first element satisfying `p` (`session.delete` of one row). -/
def eraseFirstBy (p : α → Bool) : List α → List α
  | [] => []
  | a :: l => if p a then l else a :: eraseFirstBy p l

/-- Python's `list.insert i a`: insert at index `i`, appending when `i` is
past the end. -/
def insertAt (i : Nat) (a : α) : List α → List α
  | [] => [a]
  | b :: l =>
    match i with
    | 0 => a :: b :: l
    | j + 1 => b :: insertAt j a l

/-- Row of the `children` table (`app/data/models.py`, class `Child`). -/
structure Child where
  id : Nat
  name : String
  display_order : Int
  color : Option String := none
deriving DecidableEq, Repr

/-- Row of `task_template_items` (`app/data/models.py`,
class `TaskTemplateItem`). -/
structure TaskTemplateItem where
  id : Nat
  template_type : String
  category : String
  title : String
  required : Bool
  reward_text : Option String
  sort_order : Int
  child_id : Option Nat
deriving DecidableEq, Repr

/-- Row of `daily_task_instances` (`app/data/models.py`,
class `DailyTaskInstance`).  Timestamps are abstract `Nat` instants. -/
structure DailyTaskInstance where
  id : Nat
  date : String
  child_id : Nat
  category : String
  title : String
  required : Bool
  reward_text : Option String
  sort_order : Int
  state : String
  claimed_at : Option Nat
  approved_at : Option Nat
deriving DecidableEq, Repr

/-- The `settings` singleton row (`app/data/models.py`, class `Settings`). -/
structure Settings where
  parent_pin_hash : String
  daily_reward_text : String
  last_reset_date : Option String
deriving DecidableEq, Repr

/-- The committed database state: one list per table, plus autoincrement
counters for the primary keys. `settings = none` models an empty settings
table. -/
structure DB where
  children : List Child
  templates : List TaskTemplateItem
  instances : List DailyTaskInstance
  settings : Option Settings
  next_child_id : Nat
  next_template_id : Nat
  next_instance_id : Nat
deriving DecidableEq, Repr

/-- The ambient time of one request: `today` is `date.today().isoformat()`,
`weekday` its `date.weekday()` (0 = Monday .. 6 = Sunday), `now` the instant
returned by `datetime.utcnow()`. -/
structure Clock where
  today : String
  weekday : Nat
  now : Nat
deriving DecidableEq, Repr

/-- `CATEGORIES` from `app/domain/services.py`. -/
def CATEGORIES : List String := ["SCHOOLWORK", "HYGIENE", "HELPFUL"]

/-- `MAX_CHILDREN` from `app/domain/services.py`. -/
def MAX_CHILDREN : Nat := 5

/-- `MIN_CHILDREN` from `app/domain/services.py`. -/
def MIN_CHILDREN : Nat := 1

/-- `app/security/pin.py` `hash_pin`, abstracted as an opaque tagging of the
pin text (the claims never inspect hashes). -/
def hash_pin (pin : String) : String := "hash:" ++ pin

/-- The three children inserted by `seed_data` when the roster is empty
(`app/domain/seed.py`). -/
def seedChildren (n : Nat) : List Child :=
  [ { id := n, name := "Child 1", display_order := 0 },
    { id := n + 1, name := "Child 2", display_order := 1 },
    { id := n + 2, name := "Child 3", display_order := 2 } ]

/-- The `weekday_tasks` rows of `seed_data`, as
(category, title, required, reward text, sort order). -/
def seedWeekdayRows : List (String × String × Bool × Option String × Int) :=
  [ ("SCHOOLWORK", "Math Homework", true, none, 1),
    ("SCHOOLWORK", "Science Review", true, none, 2),
    ("SCHOOLWORK", "Reading", true, none, 3),
    ("HYGIENE", "Brush Teeth", true, none, 1),
    ("HYGIENE", "Shower", true, none, 2),
    ("HYGIENE", "Change Clothes", true, none, 3),
    ("HELPFUL", "Make Bed", true, none, 1),
    ("HELPFUL", "Do Dishes", false, some "+15 min", 2),
    ("HELPFUL", "Fold Laundry", false, some "$2", 3) ]

/-- The `weekend_tasks` rows of `seed_data`. -/
def seedWeekendRows : List (String × String × Bool × Option String × Int) :=
  [ ("SCHOOLWORK", "Reading", true, none, 1),
    ("SCHOOLWORK", "Creative Writing", true, none, 2),
    ("HYGIENE", "Brush Teeth", true, none, 1),
    ("HYGIENE", "Shower", true, none, 2),
    ("HELPFUL", "Make Bed", true, none, 1),
    ("HELPFUL", "Help Cook", false, some "+15 min", 2),
    ("HELPFUL", "Yard Help", false, some "$2", 3) ]

/-- Turn seed rows of one template type into template rows with consecutive
ids starting at `n`. -/
def seedTemplateRows (tt : String) (n : Nat) :
    List (String × String × Bool × Option String × Int) → List TaskTemplateItem
  | [] => []
  | (cat, title, req, rew, so) :: rest =>
    { id := n, template_type := tt, category := cat, title := title,
      required := req, reward_text := rew, sort_order := so, child_id := none }
      :: seedTemplateRows tt (n + 1) rest

/-- `seed_data` (`app/domain/seed.py`): inserts the default roster when the
`children` table is empty and the default weekday/weekend templates when the
`task_template_items` table is empty. -/
def seed_data (db : DB) : DB :=
  let db1 :=
    if db.children.isEmpty then
      { db with children := db.children ++ seedChildren db.next_child_id,
                next_child_id := db.next_child_id + 3 }
    else db
  if db1.templates.isEmpty then
    { db1 with
        templates := db1.templates ++
          (seedTemplateRows "WEEKDAY" db1.next_template_id seedWeekdayRows ++
            seedTemplateRows "WEEKEND" (db1.next_template_id + 9) seedWeekendRows),
        next_template_id := db1.next_template_id + 16 }
  else db1

/-- The default settings row created by `get_settings` when the table is
empty. -/
def defaultSettings : Settings :=
  { parent_pin_hash := hash_pin "1234",
    daily_reward_text := "Playtime is unlocked!",
    last_reset_date := none }

/-- `get_settings`: read the singleton settings row, creating (and
committing) the default row when it does not exist. -/
def get_settings (db : DB) : Settings × DB :=
  match db.settings with
  | some s => (s, db)
  | none => (defaultSettings, { db with settings := some defaultSettings })

/-- The template day-type for the current date:
`"WEEKEND" if date.today().weekday() >= 5 else "WEEKDAY"`. -/
def dayType (c : Clock) : String := if c.weekday ≥ 5 then "WEEKEND" else "WEEKDAY"

/-- The child-scope test of the rollover loop: a template is skipped iff
`item.child_id is not None and item.child_id != child.id`. -/
def scopeMatches (t : TaskTemplateItem) (cid : Nat) : Bool :=
  match t.child_id with
  | none => true
  | some c => c == cid

/-- `select(Child).order_by(Child.display_order)`. -/
def sortChildren (cs : List Child) : List Child :=
  sortStable (fun a b => decide (a.display_order < b.display_order)) cs

/-- `select(TaskTemplateItem) ... .order_by(TaskTemplateItem.sort_order)`. -/
def sortTemplates (ts : List TaskTemplateItem) : List TaskTemplateItem :=
  sortStable (fun a b => decide (a.sort_order < b.sort_order)) ts

/-- The fresh `DailyTaskInstance` inserted by the rollover for one
(child, template) pair. -/
def instFromTemplate (date : String) (cid : Nat) (t : TaskTemplateItem)
    (iid : Nat) : DailyTaskInstance :=
  { id := iid, date := date, child_id := cid, category := t.category,
    title := t.title, required := t.required, reward_text := t.reward_text,
    sort_order := t.sort_order, state := "OPEN", claimed_at := none,
    approved_at := none }

/-- The (child id, template) pairs the rollover loop inserts instances for,
in loop order. -/
def rolloverPairs (children : List Child) (items : List TaskTemplateItem) :
    List (Nat × TaskTemplateItem) :=
  children.flatMap fun ch =>
    (items.filter fun t => scopeMatches t ch.id).map fun t => (ch.id, t)

/-- Materialize a list of rollover pairs as instance rows with consecutive
ids starting at `n`. -/
def assignIds (n : Nat) (date : String) :
    List (Nat × TaskTemplateItem) → List DailyTaskInstance
  | [] => []
  | (cid, t) :: rest => instFromTemplate date cid t n :: assignIds (n + 1) date rest

/-- `ensure_today_initialized` (`app/domain/services.py`): seed baseline
data, then — unless `Settings.last_reset_date` already equals today — create
one fresh `OPEN` instance for every (child, matching template) pair and
stamp `last_reset_date`. -/
def ensure_today_initialized (c : Clock) (db0 : DB) : DB :=
  let db1 := seed_data db0
  let p := get_settings db1
  let settings := p.1
  let db := p.2
  if settings.last_reset_date = some c.today then db
  else
    let items := sortTemplates
      (db.templates.filter fun t => t.template_type == dayType c)
    let pairs := rolloverPairs (sortChildren db.children) items
    { db with
        instances := db.instances ++ assignIds db.next_instance_id c.today pairs,
        next_instance_id := db.next_instance_id + pairs.length,
        settings := some { settings with last_reset_date := some c.today } }

/-- `session.get(DailyTaskInstance, task_id)`: primary-key lookup. -/
def lookupInstance (db : DB) (tid : Nat) : Option DailyTaskInstance :=
  db.instances.find? fun t => t.id == tid

/-- Commit a mutation of the single instance row fetched by primary key. -/
def updateInstance (db : DB) (tid : Nat)
    (f : DailyTaskInstance → DailyTaskInstance) : DB :=
  { db with instances := replaceFirstBy (fun t => t.id == tid) f db.instances }

/-- `claim_task`: child moves an owned `OPEN` task to `PENDING`; error on
missing/foreign task, error on `APPROVED`, silent success otherwise. -/
def claim_task (c : Clock) (db : DB) (child_id task_id : Nat) :
    Option String × DB :=
  match lookupInstance db task_id with
  | none => (some "Task not found", db)
  | some task =>
    if task.child_id ≠ child_id then (some "Task not found", db)
    else if task.state = "APPROVED" then (some "Task already approved", db)
    else if task.state = "OPEN" then
      (none, updateInstance db task_id fun t =>
        { t with state := "PENDING", claimed_at := some c.now, approved_at := none })
    else (none, db)

/-- `unclaim_task`: child returns an owned `PENDING` task to `OPEN`. -/
def unclaim_task (db : DB) (child_id task_id : Nat) : Option String × DB :=
  match lookupInstance db task_id with
  | none => (some "Task not found", db)
  | some task =>
    if task.child_id ≠ child_id then (some "Task not found", db)
    else if task.state = "PENDING" then
      (none, updateInstance db task_id fun t =>
        { t with state := "OPEN", claimed_at := none, approved_at := none })
    else (none, db)

/-- `approve_task`: parent approves unconditionally, stamping the claim time
too when it was never set. -/
def approve_task (c : Clock) (db : DB) (task_id : Nat) : Option String × DB :=
  match lookupInstance db task_id with
  | none => (some "Task not found", db)
  | some _ =>
    (none, updateInstance db task_id fun t =>
      { t with state := "APPROVED",
               claimed_at := if t.claimed_at = none then some c.now else t.claimed_at,
               approved_at := some c.now })

/-- `reject_task`: parent returns a task to `OPEN`, clearing both
timestamps. -/
def reject_task (db : DB) (task_id : Nat) : Option String × DB :=
  match lookupInstance db task_id with
  | none => (some "Task not found", db)
  | some _ =>
    (none, updateInstance db task_id fun t =>
      { t with state := "OPEN", claimed_at := none, approved_at := none })

/-- `revoke_task`: same mechanics as `reject_task`. -/
def revoke_task (db : DB) (task_id : Nat) : Option String × DB :=
  match lookupInstance db task_id with
  | none => (some "Task not found", db)
  | some _ =>
    (none, updateInstance db task_id fun t =>
      { t with state := "OPEN", claimed_at := none, approved_at := none })

/-- `session.get(Child, child_id)`. -/
def lookupChild (db : DB) (cid : Nat) : Option Child :=
  db.children.find? fun ch => ch.id == cid

/-- The dict returned by `create_child`. -/
structure ChildOut where
  id : Nat
  name : String
  display_order : Int
deriving DecidableEq, Repr

/-- The dict returned by `update_child` (includes `color`). -/
structure ChildOutFull where
  id : Nat
  name : String
  display_order : Int
  color : Option String
deriving DecidableEq, Repr

/-- Request body of `create_child`: `name`, optional `display_order`. -/
structure ChildCreateData where
  name : String
  display_order : Option Int
deriving DecidableEq, Repr

/-- Request body of `update_child`; `none` models an absent or null field
(both are skipped by the code). -/
structure ChildUpdateData where
  name : Option String := none
  display_order : Option Int := none
  color : Option String := none
deriving DecidableEq, Repr

/-- `create_child`: rollover pre-step, capacity check, order validation,
shift of the orders at or after the insertion point, insert, then backfill
of today's task instances for the new child only. -/
def create_child (c : Clock) (db0 : DB) (data : ChildCreateData) :
    (Option ChildOut × Option String) × DB :=
  let db := ensure_today_initialized c db0
  let children := sortChildren db.children
  if children.length ≥ MAX_CHILDREN then
    ((none, some ("Maximum of " ++ toString MAX_CHILDREN ++ " children allowed")), db)
  else
    let requested : Int := data.display_order.getD children.length
    if requested < 0 ∨ requested > children.length then
      ((none, some ("display_order must be between 0 and " ++ toString children.length)), db)
    else
      let bumped := db.children.map fun ch =>
        if ch.display_order ≥ requested then
          { ch with display_order := ch.display_order + 1 }
        else ch
      let newChild : Child :=
        { id := db.next_child_id, name := data.name, display_order := requested }
      let db := { db with children := bumped ++ [newChild],
                          next_child_id := db.next_child_id + 1 }
      let items := sortTemplates
        (db.templates.filter fun t => t.template_type == dayType c)
      let matching := items.filter fun t => scopeMatches t newChild.id
      let db := { db with
        instances := db.instances ++
          assignIds db.next_instance_id c.today
            (matching.map fun t => (newChild.id, t)),
        next_instance_id := db.next_instance_id + matching.length }
      ((some { id := newChild.id, name := newChild.name,
               display_order := newChild.display_order }, none), db)

/-- The color validation of `update_child`: a 7-character string starting
with `#` is stored, the empty string clears the color, anything else is
silently ignored. -/
def applyColor (ch : Child) (v : Option String) : Child :=
  match v with
  | none => ch
  | some s =>
    if s.length == 7 && s.startsWith "#" then { ch with color := some s }
    else if s == "" then { ch with color := none }
    else ch

/-- Renumber a roster to consecutive display orders starting at `i`
(the `for index, item in enumerate(...)` loops). -/
def renumberFrom (i : Nat) : List Child → List Child
  | [] => []
  | ch :: l => { ch with display_order := (i : Int) } :: renumberFrom (i + 1) l

/-- `update_child`: optional rename, optional full-list reposition with
renumbering, optional color change. An out-of-range `display_order` returns
an error before any commit. -/
def update_child (db : DB) (cid : Nat) (data : ChildUpdateData) :
    (Option ChildOutFull × Option String) × DB :=
  match lookupChild db cid with
  | none => ((none, some "Child not found"), db)
  | some child0 =>
    let children := sortChildren db.children
    let child1 :=
      match data.name with
      | some n => { child0 with name := n }
      | none => child0
    match data.display_order with
    | some new_order =>
      if new_order < 0 ∨ new_order ≥ children.length then
        ((none, some ("display_order must be between 0 and " ++
          toString (children.length - 1))), db)
      else
        let ordered := children.filter fun ch => ch.id ≠ cid
        let child2 := applyColor child1 data.color
        let pos := min new_order.toNat ordered.length
        let roster := renumberFrom 0 (insertAt new_order.toNat child2 ordered)
        let final : Child := { child2 with display_order := (pos : Int) }
        ((some { id := final.id, name := final.name,
                 display_order := final.display_order, color := final.color },
          none),
         { db with children := roster })
    | none =>
      let child2 := applyColor child1 data.color
      ((some { id := child2.id, name := child2.name,
               display_order := child2.display_order, color := child2.color },
        none),
       { db with children :=
          replaceFirstBy (fun ch => ch.id == cid) (fun _ => child2) db.children })

/-- `delete_child`: reject unknown ids and deletion below the roster floor;
cascade-delete the child's instances and child-scoped templates, then
renumber the remaining roster densely. -/
def delete_child (db : DB) (cid : Nat) : Option String × DB :=
  match lookupChild db cid with
  | none => (some "Child not found", db)
  | some _ =>
    if db.children.length ≤ MIN_CHILDREN then
      (some "At least one child must remain", db)
    else
      let db := { db with
        instances := db.instances.filter fun t => t.child_id ≠ cid,
        templates := db.templates.filter fun t => t.child_id ≠ some cid,
        children := eraseFirstBy (fun ch => ch.id == cid) db.children }
      (none, { db with children := renumberFrom 0 (sortChildren db.children) })

/-- Partial update body for `update_today_task`; `none` models an absent or
null field (both are skipped by the code, so e.g. `reward_text` cannot be
cleared). -/
structure TaskUpdateData where
  category : Option String := none
  title : Option String := none
  required : Option Bool := none
  reward_text : Option String := none
  sort_order : Option Int := none
deriving DecidableEq, Repr

/-- Apply the field-by-field update loop of `update_today_task`. -/
def applyTaskUpdate (d : TaskUpdateData) (t : DailyTaskInstance) :
    DailyTaskInstance :=
  { t with
      category := d.category.getD t.category,
      title := d.title.getD t.title,
      required := d.required.getD t.required,
      reward_text := match d.reward_text with
        | some r => some r
        | none => t.reward_text,
      sort_order := d.sort_order.getD t.sort_order }

/-- `update_today_task`. -/
def update_today_task (db : DB) (tid : Nat) (d : TaskUpdateData) :
    Option String × DB :=
  match lookupInstance db tid with
  | none => (some "Task not found", db)
  | some _ => (none, updateInstance db tid (applyTaskUpdate d))

/-- `delete_today_task`. -/
def delete_today_task (db : DB) (tid : Nat) : Option String × DB :=
  match lookupInstance db tid with
  | none => (some "Task not found", db)
  | some _ =>
    (none, { db with instances := eraseFirstBy (fun t => t.id == tid) db.instances })

/-- `session.get(TaskTemplateItem, task_id)`. -/
def lookupTemplate (db : DB) (tid : Nat) : Option TaskTemplateItem :=
  db.templates.find? fun t => t.id == tid

/-- Partial update body for `update_template_task`. -/
structure TemplateUpdateData where
  template_type : Option String := none
  category : Option String := none
  title : Option String := none
  required : Option Bool := none
  reward_text : Option String := none
  sort_order : Option Int := none
  child_id : Option Nat := none
deriving DecidableEq, Repr

/-- Apply the field-by-field update loop of `update_template_task`. -/
def applyTemplateUpdate (d : TemplateUpdateData) (t : TaskTemplateItem) :
    TaskTemplateItem :=
  { t with
      template_type := d.template_type.getD t.template_type,
      category := d.category.getD t.category,
      title := d.title.getD t.title,
      required := d.required.getD t.required,
      reward_text := match d.reward_text with
        | some r => some r
        | none => t.reward_text,
      sort_order := d.sort_order.getD t.sort_order,
      child_id := match d.child_id with
        | some c => some c
        | none => t.child_id }

/-- `update_template_task`. -/
def update_template_task (db : DB) (tid : Nat) (d : TemplateUpdateData) :
    Option String × DB :=
  match lookupTemplate db tid with
  | none => (some "Task not found", db)
  | some _ =>
    (none, { db with
        templates :=
          replaceFirstBy (fun t => t.id == tid) (applyTemplateUpdate d) db.templates })

/-- `delete_template_task`. -/
def delete_template_task (db : DB) (tid : Nat) : Option String × DB :=
  match lookupTemplate db tid with
  | none => (some "Task not found", db)
  | some _ =>
    (none, { db with templates := eraseFirstBy (fun t => t.id == tid) db.templates })

/-! ### Exact model of the Python float computation of `percent_complete`

`build_state` computes `int((required_approved / required_total) * 100)`.
Python evaluates `/` and `*` in IEEE-754 double precision.  We model a
nonnegative double exactly as a significand/exponent pair of integers and
implement the two correctly-rounded operations (round to nearest, ties to
even, 53-bit significand) with exact `Nat` arithmetic; `int(...)` truncates.
The fuel of `bitsAux` (400 binary digits) is far beyond every value
reachable here, where quotients carry at most 254 bits. -/

/-- Number of binary digits of `n` (fuelled, total). -/
def bitsAux : Nat → Nat → Nat
  | 0, _ => 0
  | fuel + 1, n => if n == 0 then 0 else bitsAux fuel (n / 2) + 1

/-- Number of binary digits of `n`. -/
def bits (n : Nat) : Nat := bitsAux 400 n

/-- Round the integer `p`, together with a sticky flag for discarded lower
bits, to a 53-bit significand, returning the significand and the exponent
shift.  Round to nearest, ties to even. -/
def round53 (p : Nat) (sticky : Bool) : Nat × Nat :=
  let L := bits p
  if L ≤ 53 then (p, 0)
  else
    let sh := L - 53
    let m0 := p / 2 ^ sh
    let r := p % 2 ^ sh
    let half := 2 ^ (sh - 1)
    let up := r > half || (r == half && (sticky || m0 % 2 == 1))
    let m1 := if up then m0 + 1 else m0
    if m1 == 2 ^ 53 then (2 ^ 52, sh + 1) else (m1, sh)

/-- The IEEE-754 double nearest to `a / b` (for `a, b > 0`), as value
`m * 2 ^ e`. -/
def divDouble (a b : Nat) : Nat × Int :=
  let q := a * 2 ^ 200 / b
  let rem := a * 2 ^ 200 % b
  let p := round53 q (rem != 0)
  (p.1, (p.2 : Int) - 200)

/-- The IEEE-754 double nearest to `(m * 2 ^ e) * 100`. -/
def mulDouble100 (m : Nat) (e : Int) : Nat × Int :=
  let p := round53 (m * 100) false
  (p.1, e + p.2)

/-- `int(x)` on the nonnegative double `m * 2 ^ e`. -/
def truncDouble (m : Nat) (e : Int) : Nat :=
  if 0 ≤ e then m * 2 ^ e.toNat else m / 2 ^ (-e).toNat

/-- `int((ra / rt) * 100) if rt else 0`, with Python float semantics. -/
def pyFloatPercent (ra rt : Nat) : Nat :=
  if rt = 0 then 0
  else if ra = 0 then 0
  else
    let d := divDouble ra rt
    let p := mulDouble100 d.1 d.2
    truncDouble p.1 p.2

/-- The per-task dict placed in the snapshot's category lists. -/
structure TaskView where
  id : Nat
  title : String
  required : Bool
  reward_text : Option String
  state : String
  category : String
  sort_order : Int
deriving DecidableEq, Repr

/-- One `category_progress` entry: `{approved, total}`. -/
structure CategoryProgress where
  approved : Nat
  total : Nat
deriving DecidableEq, Repr

/-- The per-child part of the snapshot built by `build_state`. -/
structure ChildState where
  id : Nat
  name : String
  display_order : Int
  color : Option String
  percent_complete : Nat
  unlocked : Bool
  pending_count : Nat
  categories : List (String × List TaskView)
  category_progress : List (String × CategoryProgress)
deriving DecidableEq, Repr

/-- The full snapshot returned by `build_state`. -/
structure StateSnapshot where
  date : String
  children : List ChildState
  daily_reward_text : String
deriving DecidableEq, Repr

/-- Lexicographic comparison of character lists by code point — the
comparison Python uses on strings. -/
def charsLt : List Char → List Char → Bool
  | [], [] => false
  | [], _ :: _ => true
  | _ :: _, [] => false
  | a :: as, b :: bs =>
    if a.val < b.val then true
    else if b.val < a.val then false
    else charsLt as bs

/-- Python's `<` on strings (code-point lexicographic). -/
def strLt (a b : String) : Bool := charsLt a.data b.data

/-- `sorted(..., key=lambda t: (t.category, t.sort_order))` — Python's
stable sort by the lexicographic (category, sort order) key. -/
def sortTasks (ts : List DailyTaskInstance) : List DailyTaskInstance :=
  sortStable
    (fun a b => strLt a.category b.category ||
      (a.category == b.category && decide (a.sort_order < b.sort_order))) ts

/-- Project an instance row to its snapshot dict. -/
def taskViewOf (t : DailyTaskInstance) : TaskView :=
  { id := t.id, title := t.title, required := t.required,
    reward_text := t.reward_text, state := t.state, category := t.category,
    sort_order := t.sort_order }

/-- The loop body of `build_state` for one child, over today's instance
rows. The source iterates once accumulating counters; we express each
counter as a count over the same task list. -/
def childStateFor (todays : List DailyTaskInstance) (child : Child) :
    ChildState :=
  let child_tasks := sortTasks (todays.filter fun t => t.child_id == child.id)
  let required_total := child_tasks.countP fun t => t.required
  let required_approved :=
    child_tasks.countP fun t => t.required && t.state == "APPROVED"
  { id := child.id, name := child.name, display_order := child.display_order,
    color := child.color,
    percent_complete := pyFloatPercent required_approved required_total,
    unlocked := required_total == required_approved,
    pending_count := child_tasks.countP fun t => t.state == "PENDING",
    categories := CATEGORIES.map fun cat =>
      (cat, (child_tasks.filter fun t => t.category == cat).map taskViewOf),
    category_progress := CATEGORIES.map fun cat =>
      (cat,
        { approved := child_tasks.countP fun t =>
            t.category == cat && t.state == "APPROVED",
          total := child_tasks.countP fun t => t.category == cat }) }

/-- `build_state`: rollover pre-step, then the read-only snapshot of today's
tasks per child.  (The Python loop indexes `categories[task.category]`, so a
row with a category outside `CATEGORIES` would raise `KeyError`; theorems
about the snapshot therefore assume every row is well-categorized.) -/
def build_state (c : Clock) (db0 : DB) : StateSnapshot × DB :=
  let db := ensure_today_initialized c db0
  let p := get_settings db
  let settings := p.1
  let db := p.2
  let todays := db.instances.filter fun t => t.date == c.today
  ({ date := c.today,
     children := (sortChildren db.children).map (childStateFor todays),
     daily_reward_text := settings.daily_reward_text }, db)

/-- Every instance row dated today carries one of the three fixed
categories — the region where the Python aggregation loop does not raise
`KeyError`. -/
def WellCategorized (c : Clock) (db : DB) : Prop :=
  ∀ t ∈ db.instances, t.date = c.today → t.category ∈ CATEGORIES

end App

namespace Kiosk

/-- Row of the `wallets` table
(`home_rewards_kiosk/app/data/models.py`, class `Wallet`). -/
structure Wallet where
  id : Nat
  child_id : Nat
  minutes_balance : Int
  money_balance_cents : Int
deriving DecidableEq, Repr

/-- Row of the `transactions` ledger
(`home_rewards_kiosk/app/data/models.py`, class `Transaction`). -/
structure Transaction where
  id : Nat
  child_id : Nat
  type : String
  minutes_delta : Int
  cents_delta : Int
  status : String
deriving DecidableEq, Repr

/-- The kiosk settings fields the wallet/cashout services read. -/
structure Settings where
  daily_minute_cap : Int
  exchange_rate_cents : Int
deriving DecidableEq, Repr

/-- Committed state of the wallet variant. -/
structure KioskDB where
  wallets : List Wallet
  transactions : List Transaction
  settings : Option Settings
  next_wallet_id : Nat
  next_transaction_id : Nat
deriving DecidableEq, Repr

/-- `wallets_repo.get_wallet`: the wallet row of a child
(`child_id` carries a unique constraint). -/
def get_wallet (k : KioskDB) (cid : Nat) : Option Wallet :=
  k.wallets.find? fun w => w.child_id == cid

/-- Commit a mutation of the single wallet row fetched for `wid`. -/
def putWallet (k : KioskDB) (wid : Nat) (w : Wallet) : KioskDB :=
  { k with wallets := App.replaceFirstBy (fun x => x.id == wid) (fun _ => w) k.wallets }

/-- `wallet_service.get_or_create_wallet`: read the wallet, creating a
zero-balance row when none exists. -/
def get_or_create_wallet (k : KioskDB) (cid : Nat) : Wallet × KioskDB :=
  match get_wallet k cid with
  | some w => (w, k)
  | none =>
    let w : Wallet := { id := k.next_wallet_id, child_id := cid,
                        minutes_balance := 0, money_balance_cents := 0 }
    (w, { k with wallets := k.wallets ++ [w],
                 next_wallet_id := k.next_wallet_id + 1 })

/-- `wallet_service.add_minutes`. -/
def add_minutes (k : KioskDB) (cid : Nat) (minutes : Int) : Wallet × KioskDB :=
  let p := get_or_create_wallet k cid
  let w := { p.1 with minutes_balance := p.1.minutes_balance + minutes }
  (w, putWallet p.2 w.id w)

/-- `wallet_service.spend_minutes`: the balance is clamped at zero,
`max(balance - minutes, 0)`. -/
def spend_minutes (k : KioskDB) (cid : Nat) (minutes : Int) : Wallet × KioskDB :=
  let p := get_or_create_wallet k cid
  let w := { p.1 with minutes_balance := max (p.1.minutes_balance - minutes) 0 }
  (w, putWallet p.2 w.id w)

/-- `wallet_service.add_money`. -/
def add_money (k : KioskDB) (cid : Nat) (cents : Int) : Wallet × KioskDB :=
  let p := get_or_create_wallet k cid
  let w := { p.1 with money_balance_cents := p.1.money_balance_cents + cents }
  (w, putWallet p.2 w.id w)

/-- `cashout_service.request_cashout`: spend the minutes (clamped), credit
the converted cents, and append a pending ledger row. Raises when the
settings row is missing, modelled as `Except.error`. -/
def request_cashout (k : KioskDB) (cid : Nat) (minutes : Int) :
    Except String (Transaction × KioskDB) :=
  match k.settings with
  | none => Except.error "Settings not initialized"
  | some s =>
    let cents := minutes * s.exchange_rate_cents
    let k1 := (spend_minutes k cid minutes).2
    let k2 := (add_money k1 cid cents).2
    let txn : Transaction :=
      { id := k2.next_transaction_id, child_id := cid, type := "cashout",
        minutes_delta := -minutes, cents_delta := cents, status := "pending" }
    Except.ok (txn,
      { k2 with transactions := k2.transactions ++ [txn],
                next_transaction_id := k2.next_transaction_id + 1 })

end Kiosk

namespace App

theorem insStable_perm (lt : α → α → Bool) (a : α) (l : List α) :
    List.Perm (insStable lt a l) (a :: l) := by
  induction l with
  | nil => simp [insStable]
  | cons b l ih =>
    simp only [insStable]
    split
    · exact (ih.cons b).trans (List.Perm.swap a b l)
    · exact List.Perm.refl _

theorem sortStable_perm (lt : α → α → Bool) (l : List α) :
    List.Perm (sortStable lt l) l := by
  induction l with
  | nil => exact List.Perm.refl _
  | cons a l ih => exact (insStable_perm lt a (sortStable lt l)).trans (ih.cons a)

theorem sortStable_length (lt : α → α → Bool) (l : List α) :
    (sortStable lt l).length = l.length :=
  (sortStable_perm lt l).length_eq

theorem mem_sortStable (lt : α → α → Bool) (l : List α) (a : α) :
    a ∈ sortStable lt l ↔ a ∈ l :=
  (sortStable_perm lt l).mem_iff

theorem countP_sortStable (lt : α → α → Bool) (l : List α) (p : α → Bool) :
    (sortStable lt l).countP p = l.countP p :=
  (sortStable_perm lt l).countP_eq p

theorem find?_replaceFirstBy (p : α → Bool) (f : α → α) (l : List α)
    (hf : ∀ a, p (f a) = p a) :
    (replaceFirstBy p f l).find? p = (l.find? p).map f := by
  induction l with
  | nil => simp [replaceFirstBy]
  | cons a l ih =>
    by_cases h : p a
    · simp [replaceFirstBy, h, List.find?_cons, hf]
    · simp only [replaceFirstBy, h, Bool.false_eq_true, if_false]
      rw [List.find?_cons_of_neg _ (by simp [h]), List.find?_cons_of_neg _ (by simp [h]), ih]

theorem mem_replaceFirstBy (p : α → Bool) (f : α → α) (l : List α) (x : α)
    (hx : x ∈ replaceFirstBy p f l) : x ∈ l ∨ ∃ a ∈ l, p a ∧ x = f a := by
  induction l with
  | nil => simp [replaceFirstBy] at hx
  | cons a l ih =>
    by_cases h : p a
    · simp only [replaceFirstBy, h, if_true, List.mem_cons] at hx
      rcases hx with rfl | hx
      · exact Or.inr ⟨a, List.mem_cons_self a l, h, rfl⟩
      · exact Or.inl (List.mem_cons_of_mem a hx)
    · simp only [replaceFirstBy, h, Bool.false_eq_true, if_false, List.mem_cons] at hx
      rcases hx with rfl | hx
      · exact Or.inl (List.mem_cons_self x l)
      · rcases ih hx with h1 | ⟨b, hb, hpb, rfl⟩
        · exact Or.inl (List.mem_cons_of_mem a h1)
        · exact Or.inr ⟨b, List.mem_cons_of_mem a hb, hpb, rfl⟩

theorem mem_replaceFirstBy_of_not (p : α → Bool) (f : α → α) (l : List α)
    (x : α) (hx : x ∈ l) (hpx : ¬ p x) : x ∈ replaceFirstBy p f l := by
  induction l with
  | nil => simp at hx
  | cons a l ih =>
    rcases List.mem_cons.mp hx with rfl | hx
    · simp [replaceFirstBy, hpx]
    · by_cases h : p a
      · simp [replaceFirstBy, h, List.mem_cons_of_mem _ hx]
      · simp only [replaceFirstBy, h, Bool.false_eq_true, if_false]
        exact List.mem_cons_of_mem a (ih hx)

theorem map_replaceFirstBy (p : α → Bool) (f : α → α) (g : α → β) (l : List α)
    (hg : ∀ a, g (f a) = g a) :
    (replaceFirstBy p f l).map g = l.map g := by
  induction l with
  | nil => rfl
  | cons a l ih =>
    by_cases h : p a
    · simp [replaceFirstBy, h, hg]
    · simp [replaceFirstBy, h, ih]

theorem eraseFirstBy_length (p : α → Bool) (l : List α) (a : α)
    (h : l.find? p = some a) : (eraseFirstBy p l).length + 1 = l.length := by
  induction l with
  | nil => simp at h
  | cons b l ih =>
    by_cases hb : p b
    · simp [eraseFirstBy, hb]
    · rw [List.find?_cons_of_neg _ (by simp [hb])] at h
      simp [eraseFirstBy, hb, ih h]

theorem insertAt_perm (i : Nat) (a : α) (l : List α) :
    List.Perm (insertAt i a l) (a :: l) := by
  induction l generalizing i with
  | nil => simp [insertAt]
  | cons b l ih =>
    match i with
    | 0 => exact List.Perm.refl _
    | j + 1 =>
      simp only [insertAt]
      exact ((ih j).cons b).trans (List.Perm.swap a b l)

theorem countP_conj_eq_iff (p q : α → Bool) (l : List α) :
    l.countP (fun t => p t && q t) = l.countP p ↔
      ∀ t ∈ l, p t = true → q t = true := by
  have hcomm : l.countP (fun t => p t && q t) = l.countP (fun t => q t && p t) :=
    List.countP_congr fun x _ => by rw [Bool.and_comm]
  rw [hcomm, ← List.countP_filter, List.countP_eq_length_filter p l,
    List.countP_eq_length]
  constructor
  · intro h t ht hpt
    exact h t (List.mem_filter.mpr ⟨ht, hpt⟩)
  · intro h t ht
    exact h t (List.mem_filter.mp ht).1 (List.mem_filter.mp ht).2

theorem seed_data_instances (db : DB) : (seed_data db).instances = db.instances := by
  by_cases h1 : db.children.isEmpty = true <;>
    by_cases h2 : db.templates.isEmpty = true <;>
      simp [seed_data, h1, h2]

theorem seed_data_settings (db : DB) : (seed_data db).settings = db.settings := by
  by_cases h1 : db.children.isEmpty = true <;>
    by_cases h2 : db.templates.isEmpty = true <;>
      simp [seed_data, h1, h2]

theorem seed_data_children_of_ne_nil (db : DB) (h : db.children ≠ []) :
    (seed_data db).children = db.children := by
  have h1 : ¬ db.children.isEmpty = true := by simpa [List.isEmpty_iff] using h
  by_cases h2 : db.templates.isEmpty = true <;> simp [seed_data, h1, h2]

theorem seed_data_eq_self (db : DB) (h1 : db.children ≠ []) (h2 : db.templates ≠ []) :
    seed_data db = db := by
  have h1' : ¬ db.children.isEmpty = true := by simpa [List.isEmpty_iff] using h1
  have h2' : ¬ db.templates.isEmpty = true := by simpa [List.isEmpty_iff] using h2
  simp [seed_data, h1', h2']

theorem seed_data_children_ne_nil (db : DB) : (seed_data db).children ≠ [] := by
  by_cases h1 : db.children.isEmpty = true <;>
    by_cases h2 : db.templates.isEmpty = true <;>
      simp_all [seed_data, seedChildren, List.isEmpty_iff]

theorem seed_data_templates_ne_nil (db : DB) : (seed_data db).templates ≠ [] := by
  by_cases h1 : db.children.isEmpty = true <;>
    by_cases h2 : db.templates.isEmpty = true <;>
      simp_all [seed_data, seedTemplateRows, seedWeekdayRows, seedWeekendRows,
        List.isEmpty_iff]

theorem get_settings_of_some (db : DB) (s : Settings) (h : db.settings = some s) :
    get_settings db = (s, db) := by
  simp [get_settings, h]

/-- The rollover for `c.today` has already been committed. -/
def rolloverDone (c : Clock) (db : DB) : Prop :=
  ∃ s, db.settings = some s ∧ s.last_reset_date = some c.today

theorem ensure_instances_of_done (c : Clock) (db : DB) (s : Settings)
    (h : db.settings = some s) (ht : s.last_reset_date = some c.today) :
    (ensure_today_initialized c db).instances = db.instances := by
  simp only [ensure_today_initialized]
  rw [get_settings_of_some (seed_data db) s (by rw [seed_data_settings, h])]
  dsimp only
  rw [if_pos ht, seed_data_instances db]

theorem ensure_rolloverDone (c : Clock) (db : DB) :
    rolloverDone c (ensure_today_initialized c db) := by
  simp only [ensure_today_initialized]
  rcases hs : (seed_data db).settings with _ | s
  · simp only [get_settings, hs]
    split
    · next h => exact ⟨defaultSettings, rfl, h⟩
    · exact ⟨_, rfl, rfl⟩
  · simp only [get_settings, hs]
    split
    · next h => exact ⟨s, hs, h⟩
    · exact ⟨_, rfl, rfl⟩

theorem ensure_children_eq_of_ne_nil (c : Clock) (db : DB) (h : db.children ≠ []) :
    (ensure_today_initialized c db).children = db.children := by
  simp only [ensure_today_initialized]
  have hc := seed_data_children_of_ne_nil db h
  rcases hs : (seed_data db).settings with _ | s <;>
    simp only [get_settings, hs] <;> split <;> simpa using hc

theorem ensure_children_ne_nil (c : Clock) (db : DB) :
    (ensure_today_initialized c db).children ≠ [] := by
  simp only [ensure_today_initialized]
  have hc := seed_data_children_ne_nil db
  rcases hs : (seed_data db).settings with _ | s <;>
    simp only [get_settings, hs] <;> split <;> simpa using hc

theorem ensure_templates_ne_nil (c : Clock) (db : DB) :
    (ensure_today_initialized c db).templates ≠ [] := by
  simp only [ensure_today_initialized]
  have hc := seed_data_templates_ne_nil db
  rcases hs : (seed_data db).settings with _ | s <;>
    simp only [get_settings, hs] <;> split <;> simpa using hc

theorem ensure_eq_self_of_done (c : Clock) (db : DB) (h : rolloverDone c db)
    (h1 : db.children ≠ []) (h2 : db.templates ≠ []) :
    ensure_today_initialized c db = db := by
  obtain ⟨s, hs, ht⟩ := h
  simp only [ensure_today_initialized]
  rw [seed_data_eq_self db h1 h2, get_settings_of_some db s hs]
  dsimp only
  rw [if_pos ht]

theorem ensure_idem (c : Clock) (db : DB) :
    ensure_today_initialized c (ensure_today_initialized c db) =
      ensure_today_initialized c db :=
  ensure_eq_self_of_done c _ (ensure_rolloverDone c db)
    (ensure_children_ne_nil c db) (ensure_templates_ne_nil c db)

/-! ### Shared concrete fixtures for witnesses and counterexamples -/

/-- A Monday. -/
def sampleClock : Clock := { today := "2026-01-05", weekday := 0, now := 100 }

def sampleChild1 : Child := { id := 1, name := "Ada", display_order := 0 }

def sampleChild2 : Child := { id := 2, name := "Ben", display_order := 1 }

/-- Unscoped required weekday template. -/
def mathTemplate : TaskTemplateItem :=
  { id := 1, template_type := "WEEKDAY", category := "SCHOOLWORK",
    title := "Math", required := true, reward_text := none, sort_order := 1,
    child_id := none }

/-- Optional weekday template scoped to child 2. -/
def dishesTemplate : TaskTemplateItem :=
  { id := 2, template_type := "WEEKDAY", category := "HELPFUL",
    title := "Dishes", required := false, reward_text := some "+15 min",
    sort_order := 2, child_id := some 2 }

/-- Settings with the rollover already done for `sampleClock`. -/
def settingsDoneToday : Settings :=
  { parent_pin_hash := hash_pin "1234",
    daily_reward_text := "Playtime is unlocked!",
    last_reset_date := some "2026-01-05" }

/-- Settings last reset the day before `sampleClock`. -/
def settingsYesterday : Settings :=
  { parent_pin_hash := hash_pin "1234",
    daily_reward_text := "Playtime is unlocked!",
    last_reset_date := some "2026-01-04" }

/-- Two children, two templates, rollover already done today. -/
def sampleDoneDB : DB :=
  { children := [sampleChild1, sampleChild2],
    templates := [mathTemplate, dishesTemplate], instances := [],
    settings := some settingsDoneToday, next_child_id := 3,
    next_template_id := 3, next_instance_id := 1 }

/-- Two children, two templates, rollover still pending today. -/
def samplePendingDB : DB :=
  { children := [sampleChild1, sampleChild2],
    templates := [mathTemplate, dishesTemplate], instances := [],
    settings := some settingsYesterday, next_child_id := 3,
    next_template_id := 3, next_instance_id := 1 }

/-- C1: Rollover idempotence — when `Settings.last_reset_date` already equals
today, `ensure_today_initialized` leaves the `DailyTaskInstance` table
unchanged; and running the rollover twice in the same day yields exactly the
state of running it once, so no duplicate instances arise. -/
theorem C1_rollover_idempotent (c : Clock) :
    (∀ (db : DB) (s : Settings), db.settings = some s →
      s.last_reset_date = some c.today →
      (ensure_today_initialized c db).instances = db.instances) ∧
    (∀ db : DB, ensure_today_initialized c (ensure_today_initialized c db) =
      ensure_today_initialized c db) :=
  ⟨fun db s h ht => ensure_instances_of_done c db s h ht,
   fun db => ensure_idem c db⟩

/-- Witness for C1 at a concrete state whose rollover already ran today. -/
theorem C1_rollover_idempotent_witness :
    sampleDoneDB.settings = some settingsDoneToday ∧
    settingsDoneToday.last_reset_date = some sampleClock.today ∧
    (ensure_today_initialized sampleClock sampleDoneDB).instances =
      sampleDoneDB.instances ∧
    ensure_today_initialized sampleClock
        (ensure_today_initialized sampleClock sampleDoneDB) =
      ensure_today_initialized sampleClock sampleDoneDB :=
  ⟨rfl, rfl,
   (C1_rollover_idempotent sampleClock).1 sampleDoneDB settingsDoneToday rfl rfl,
   (C1_rollover_idempotent sampleClock).2 sampleDoneDB⟩

/-! ### C2: content of the materialized instances -/

/-- The business content of an instance row — everything except the
autoincrement id and the timestamps. -/
structure InstanceContent where
  date : String
  child_id : Nat
  category : String
  title : String
  required : Bool
  reward_text : Option String
  sort_order : Int
  state : String
deriving DecidableEq, Repr

/-- Content projection of an instance row. -/
def contentOf (t : DailyTaskInstance) : InstanceContent :=
  { date := t.date, child_id := t.child_id, category := t.category,
    title := t.title, required := t.required, reward_text := t.reward_text,
    sort_order := t.sort_order, state := t.state }

/-- The content the rollover copies out of a template for one child: a fresh
`OPEN` instance dated today. -/
def pairContent (date : String) (cid : Nat) (t : TaskTemplateItem) :
    InstanceContent :=
  { date := date, child_id := cid, category := t.category, title := t.title,
    required := t.required, reward_text := t.reward_text,
    sort_order := t.sort_order, state := "OPEN" }

/-- The templates that apply to child `cid` today: day-type matches and the
template is unscoped or scoped to that child. -/
def matchingTemplatesFor (db : DB) (c : Clock) (cid : Nat) :
    List TaskTemplateItem :=
  db.templates.filter fun t => t.template_type == dayType c && scopeMatches t cid

theorem assignIds_map_contentOf (d : String)
    (ps : List (Nat × TaskTemplateItem)) :
    ∀ n, (assignIds n d ps).map contentOf =
      ps.map fun pr => pairContent d pr.1 pr.2 := by
  induction ps with
  | nil => intro n; rfl
  | cons hd tl ih =>
    intro n
    obtain ⟨cid, t⟩ := hd
    simp only [assignIds, List.map_cons, ih]
    rfl

theorem matching_perm (db : DB) (c : Clock) (cid : Nat) :
    List.Perm
      ((sortTemplates (db.templates.filter fun t =>
          t.template_type == dayType c)).filter fun t => scopeMatches t cid)
      (matchingTemplatesFor db c cid) := by
  refine ((sortStable_perm _ _).filter _).trans ?_
  rw [List.filter_filter]
  have heq : (db.templates.filter fun a =>
      scopeMatches a cid && (a.template_type == dayType c)) =
      matchingTemplatesFor db c cid := by
    unfold matchingTemplatesFor
    exact List.filter_congr fun a _ => by rw [Bool.and_comm]
  rw [heq]

/-- C2: Rollover correctness — when the gate is open, the rollover appends,
for every (child, template) pair whose template matches today's day-type and
is unscoped or scoped to that child, exactly one fresh `OPEN` instance dated
today copying the template's category/title/required/reward-text/sort-order
(stated as a multiset equality of instance contents); and on the concrete
Monday scenario with children 1, 2 and templates Math (unscoped) and Dishes
(scoped to child 2) it produces exactly the three expected instances. -/
theorem C2_rollover_correct :
    (∀ (c : Clock) (db : DB) (s : Settings), db.children ≠ [] →
      db.templates ≠ [] → db.settings = some s →
      s.last_reset_date ≠ some c.today →
      List.Perm ((ensure_today_initialized c db).instances.map contentOf)
        (db.instances.map contentOf ++
          db.children.flatMap fun ch =>
            (matchingTemplatesFor db c ch.id).map (pairContent c.today ch.id))) ∧
    (ensure_today_initialized sampleClock samplePendingDB).instances =
      [ instFromTemplate "2026-01-05" 1 mathTemplate 1,
        instFromTemplate "2026-01-05" 2 mathTemplate 2,
        instFromTemplate "2026-01-05" 2 dishesTemplate 3 ] := by
  constructor
  · intro c db s h1 h2 hs hgate
    simp only [ensure_today_initialized]
    rw [seed_data_eq_self db h1 h2, get_settings_of_some db s hs]
    dsimp only
    rw [if_neg hgate]
    dsimp only
    rw [List.map_append, assignIds_map_contentOf]
    refine List.Perm.append_left _ ?_
    unfold rolloverPairs
    rw [List.map_flatMap]
    refine List.Perm.trans ((sortStable_perm _ db.children).flatMap_right _) ?_
    refine List.Perm.flatMap_left _ fun ch _ => ?_
    rw [List.map_map]
    exact (matching_perm db c ch.id).map (pairContent c.today ch.id)
  · decide

/-- Witness for C2 discharging its hypotheses on the concrete Monday
scenario. -/
theorem C2_rollover_correct_witness :
    samplePendingDB.children ≠ [] ∧ samplePendingDB.templates ≠ [] ∧
    samplePendingDB.settings = some settingsYesterday ∧
    settingsYesterday.last_reset_date ≠ some sampleClock.today ∧
    List.Perm
      ((ensure_today_initialized sampleClock samplePendingDB).instances.map
        contentOf)
      (samplePendingDB.instances.map contentOf ++
        samplePendingDB.children.flatMap fun ch =>
          (matchingTemplatesFor samplePendingDB sampleClock ch.id).map
            (pairContent sampleClock.today ch.id)) :=
  ⟨by decide, by decide, rfl, by decide,
   C2_rollover_correct.1 sampleClock samplePendingDB settingsYesterday
     (by decide) (by decide) rfl (by decide)⟩

theorem lookupInstance_updateInstance (db : DB) (tid : Nat)
    (f : DailyTaskInstance → DailyTaskInstance) (hf : ∀ t, (f t).id = t.id) :
    lookupInstance (updateInstance db tid f) tid =
      (lookupInstance db tid).map f := by
  unfold lookupInstance updateInstance
  exact find?_replaceFirstBy _ f db.instances fun a => by simp [hf a]

/-- C3: `claim_task` semantics — it fails with "Task not found" iff there is
no instance with the given id owned by the given child; it fails with "Task
already approved" iff the owned instance is `APPROVED`; on an owned `OPEN`
instance it succeeds, moving it to `PENDING` with a non-null claim timestamp
and a null approval timestamp while leaving every other instance in place;
on an owned `PENDING` instance it succeeds and changes nothing. -/
theorem C3_claim_semantics (c : Clock) (db : DB) (cid tid : Nat) :
    ((claim_task c db cid tid).1 = some "Task not found" ↔
      ∀ t, lookupInstance db tid = some t → t.child_id ≠ cid) ∧
    ((claim_task c db cid tid).1 = some "Task already approved" ↔
      ∃ t, lookupInstance db tid = some t ∧ t.child_id = cid ∧
        t.state = "APPROVED") ∧
    (∀ t, lookupInstance db tid = some t → t.child_id = cid →
      t.state = "OPEN" →
      (claim_task c db cid tid).1 = none ∧
      lookupInstance (claim_task c db cid tid).2 tid =
        some { t with state := "PENDING", claimed_at := some c.now,
                      approved_at := none } ∧
      ∀ u ∈ db.instances, u.id ≠ tid →
        u ∈ (claim_task c db cid tid).2.instances) ∧
    (∀ t, lookupInstance db tid = some t → t.child_id = cid →
      t.state = "PENDING" → claim_task c db cid tid = (none, db)) := by
  unfold claim_task
  cases hl : lookupInstance db tid with
  | none =>
    dsimp only
    refine ⟨by simp, iff_of_false (fun h => absurd (Option.some.inj h) (by decide)) ?_,
      ?_, ?_⟩
    · rintro ⟨t, ht, -⟩
      exact Option.noConfusion ht
    · intro t ht
      exact Option.noConfusion ht
    · intro t ht
      exact Option.noConfusion ht
  | some t0 =>
    dsimp only
    by_cases hc : t0.child_id = cid
    · rw [if_neg (by simp [hc])]
      by_cases ha : t0.state = "APPROVED"
      · rw [if_pos ha]
        refine ⟨iff_of_false (fun h => absurd (Option.some.inj h) (by decide))
            fun h => (h t0 rfl) hc,
          iff_of_true rfl ⟨t0, rfl, hc, ha⟩, ?_, ?_⟩
        · intro t ht hch hopen
          obtain rfl : t0 = t := Option.some.inj ht
          rw [hopen] at ha
          exact absurd ha (by decide)
        · intro t ht hch hpend
          obtain rfl : t0 = t := Option.some.inj ht
          rw [hpend] at ha
          exact absurd ha (by decide)
      · rw [if_neg ha]
        by_cases ho : t0.state = "OPEN"
        · rw [if_pos ho]
          refine ⟨iff_of_false (fun h => Option.noConfusion h) fun h => (h t0 rfl) hc,
            iff_of_false (fun h => Option.noConfusion h) ?_, ?_, ?_⟩
          · rintro ⟨t, ht, hch, hst⟩
            obtain rfl : t0 = t := Option.some.inj ht
            rw [ho] at hst
            exact absurd hst (by decide)
          · intro t ht hch hopen
            obtain rfl : t0 = t := Option.some.inj ht
            refine ⟨rfl, ?_, ?_⟩
            · dsimp only
              have hupd := lookupInstance_updateInstance db tid
                (fun t => { t with state := "PENDING", claimed_at := some c.now, approved_at := none })
                (fun t => rfl)
              rw [hupd, hl]
              rfl
            · intro u hu hne
              exact mem_replaceFirstBy_of_not _ _ db.instances u hu (by simp [hne])
          · intro t ht hch hpend
            obtain rfl : t0 = t := Option.some.inj ht
            rw [hpend] at ho
            exact absurd ho (by decide)
        · rw [if_neg ho]
          refine ⟨iff_of_false (fun h => Option.noConfusion h) fun h => (h t0 rfl) hc,
            iff_of_false (fun h => Option.noConfusion h) ?_, ?_, ?_⟩
          · rintro ⟨t, ht, hch, hst⟩
            obtain rfl : t0 = t := Option.some.inj ht
            exact ha hst
          · intro t ht hch hopen
            obtain rfl : t0 = t := Option.some.inj ht
            exact absurd hopen ho
          · intro t ht hch hpend
            exact rfl
    · rw [if_pos (by simp [hc])]
      refine ⟨iff_of_true rfl ?_,
        iff_of_false (fun h => absurd (Option.some.inj h) (by decide)) ?_, ?_, ?_⟩
      · intro t ht
        obtain rfl : t0 = t := Option.some.inj ht
        exact hc
      · rintro ⟨t, ht, hch, hst⟩
        obtain rfl : t0 = t := Option.some.inj ht
        exact hc hch
      · intro t ht hch
        obtain rfl : t0 = t := Option.some.inj ht
        exact absurd hch hc
      · intro t ht hch
        obtain rfl : t0 = t := Option.some.inj ht
        exact absurd hch hc

/-- A single owned `OPEN` task for the C3 witness. -/
def openTask : DailyTaskInstance :=
  { id := 7, date := "2026-01-05", child_id := 1, category := "HYGIENE",
    title := "Brush Teeth", required := true, reward_text := none,
    sort_order := 1, state := "OPEN", claimed_at := none, approved_at := none }

/-- DB with one `OPEN` task owned by child 1, rollover done today. -/
def openTaskDB : DB :=
  { children := [sampleChild1, sampleChild2],
    templates := [mathTemplate, dishesTemplate], instances := [openTask],
    settings := some settingsDoneToday, next_child_id := 3,
    next_template_id := 3, next_instance_id := 8 }

/-- Witness for C3: claiming the concrete `OPEN` task succeeds and moves it
to `PENDING` with the timestamps set as claimed. -/
theorem C3_claim_semantics_witness :
    lookupInstance openTaskDB 7 = some openTask ∧
    openTask.child_id = 1 ∧ openTask.state = "OPEN" ∧
    (claim_task sampleClock openTaskDB 1 7).1 = none ∧
    lookupInstance (claim_task sampleClock openTaskDB 1 7).2 7 =
      some { openTask with state := "PENDING", claimed_at := some sampleClock.now,
                           approved_at := none } :=
  ⟨rfl, rfl, rfl,
   ((C3_claim_semantics sampleClock openTaskDB 1 7).2.2.1 openTask rfl rfl rfl).1,
   ((C3_claim_semantics sampleClock openTaskDB 1 7).2.2.1 openTask rfl rfl rfl).2.1⟩

theorem mem_of_replace_no_rejected (p : DailyTaskInstance → Bool)
    (f : DailyTaskInstance → DailyTaskInstance) (l : List DailyTaskInstance)
    (hs : ∀ a, (f a).state ≠ "REJECTED") :
    ∀ u ∈ replaceFirstBy p f l, u.state = "REJECTED" → u ∈ l := by
  intro u hu hrej
  rcases mem_replaceFirstBy p f l u hu with h | ⟨a, ha, hpa, rfl⟩
  · exact h
  · exact absurd hrej (hs a)

theorem claim_task_no_rejected (c : Clock) (db : DB) (cid tid : Nat) :
    ∀ u ∈ (claim_task c db cid tid).2.instances,
      u.state = "REJECTED" → u ∈ db.instances := by
  intro u hu hrej
  unfold claim_task at hu
  split at hu
  · exact hu
  · split at hu
    · exact hu
    · split at hu
      · exact hu
      · split at hu
        · exact mem_of_replace_no_rejected _ _ db.instances
            (fun a h => absurd (show ("PENDING" : String) = "REJECTED" from h)
              (by decide)) u hu hrej
        · exact hu

theorem unclaim_task_no_rejected (db : DB) (cid tid : Nat) :
    ∀ u ∈ (unclaim_task db cid tid).2.instances,
      u.state = "REJECTED" → u ∈ db.instances := by
  intro u hu hrej
  unfold unclaim_task at hu
  split at hu
  · exact hu
  · split at hu
    · exact hu
    · split at hu
      · exact mem_of_replace_no_rejected _ _ db.instances
          (fun a h => absurd (show ("OPEN" : String) = "REJECTED" from h)
            (by decide)) u hu hrej
      · exact hu

theorem approve_task_no_rejected (c : Clock) (db : DB) (tid : Nat) :
    ∀ u ∈ (approve_task c db tid).2.instances,
      u.state = "REJECTED" → u ∈ db.instances := by
  intro u hu hrej
  unfold approve_task at hu
  split at hu
  · exact hu
  · exact mem_of_replace_no_rejected _ _ db.instances
      (fun a h => absurd (show ("APPROVED" : String) = "REJECTED" from h)
        (by decide)) u hu hrej

theorem reject_task_no_rejected (db : DB) (tid : Nat) :
    ∀ u ∈ (reject_task db tid).2.instances,
      u.state = "REJECTED" → u ∈ db.instances := by
  intro u hu hrej
  unfold reject_task at hu
  split at hu
  · exact hu
  · exact mem_of_replace_no_rejected _ _ db.instances
      (fun a h => absurd (show ("OPEN" : String) = "REJECTED" from h)
        (by decide)) u hu hrej

theorem revoke_task_no_rejected (db : DB) (tid : Nat) :
    ∀ u ∈ (revoke_task db tid).2.instances,
      u.state = "REJECTED" → u ∈ db.instances := by
  intro u hu hrej
  unfold revoke_task at hu
  split at hu
  · exact hu
  · exact mem_of_replace_no_rejected _ _ db.instances
      (fun a h => absurd (show ("OPEN" : String) = "REJECTED" from h)
        (by decide)) u hu hrej

/-- C4: `reject_task` and `revoke_task` — on a missing id both fail with
"Task not found"; on any existing instance, in any state, both perform the
identical unconditional reset to `OPEN` with both timestamps cleared and
succeed, leaving other instances in place; and no state-machine operation
(claim/unclaim/approve/reject/revoke) ever produces a `REJECTED` row that
was not already present. -/
theorem C4_reject_revoke_semantics (c : Clock) (db : DB) (tid : Nat) :
    (lookupInstance db tid = none →
      reject_task db tid = (some "Task not found", db) ∧
      revoke_task db tid = (some "Task not found", db)) ∧
    (∀ t, lookupInstance db tid = some t →
      reject_task db tid = revoke_task db tid ∧
      (reject_task db tid).1 = none ∧
      lookupInstance (reject_task db tid).2 tid =
        some { t with state := "OPEN", claimed_at := none,
                      approved_at := none } ∧
      ∀ u ∈ db.instances, u.id ≠ tid →
        u ∈ (reject_task db tid).2.instances) ∧
    (∀ cid, ∀ u ∈ (claim_task c db cid tid).2.instances,
      u.state = "REJECTED" → u ∈ db.instances) ∧
    (∀ cid, ∀ u ∈ (unclaim_task db cid tid).2.instances,
      u.state = "REJECTED" → u ∈ db.instances) ∧
    (∀ u ∈ (approve_task c db tid).2.instances,
      u.state = "REJECTED" → u ∈ db.instances) ∧
    (∀ u ∈ (reject_task db tid).2.instances,
      u.state = "REJECTED" → u ∈ db.instances) ∧
    (∀ u ∈ (revoke_task db tid).2.instances,
      u.state = "REJECTED" → u ∈ db.instances) := by
  refine ⟨?_, ?_, fun cid => claim_task_no_rejected c db cid tid,
    fun cid => unclaim_task_no_rejected db cid tid,
    approve_task_no_rejected c db tid, reject_task_no_rejected db tid,
    revoke_task_no_rejected db tid⟩
  · intro hl
    unfold reject_task revoke_task
    rw [hl]
    exact ⟨rfl, rfl⟩
  · intro t hl
    unfold reject_task revoke_task
    rw [hl]
    dsimp only
    refine ⟨rfl, rfl, ?_, ?_⟩
    · have hupd := lookupInstance_updateInstance db tid
        (fun t => { t with state := "OPEN", claimed_at := none, approved_at := none })
        (fun t => rfl)
      rw [hupd, hl]
      rfl
    · intro u hu hne
      exact mem_replaceFirstBy_of_not _ _ db.instances u hu (by simp [hne])

/-- An `APPROVED` task (previously claimed) for the C4 witness. -/
def approvedTask : DailyTaskInstance :=
  { id := 9, date := "2026-01-05", child_id := 2, category := "SCHOOLWORK",
    title := "Math", required := true, reward_text := none, sort_order := 1,
    state := "APPROVED", claimed_at := some 50, approved_at := some 60 }

/-- DB holding the approved task. -/
def approvedTaskDB : DB :=
  { children := [sampleChild1, sampleChild2],
    templates := [mathTemplate, dishesTemplate], instances := [approvedTask],
    settings := some settingsDoneToday, next_child_id := 3,
    next_template_id := 3, next_instance_id := 10 }

/-- Witness for C4: revoking (= rejecting) the concrete approved task
returns it to `OPEN` with both timestamps cleared. -/
theorem C4_reject_revoke_semantics_witness :
    lookupInstance approvedTaskDB 9 = some approvedTask ∧
    reject_task approvedTaskDB 9 = revoke_task approvedTaskDB 9 ∧
    (reject_task approvedTaskDB 9).1 = none ∧
    lookupInstance (reject_task approvedTaskDB 9).2 9 =
      some { approvedTask with state := "OPEN", claimed_at := none,
                               approved_at := none } :=
  ⟨rfl,
   ((C4_reject_revoke_semantics sampleClock approvedTaskDB 9).2.1
      approvedTask rfl).1,
   ((C4_reject_revoke_semantics sampleClock approvedTaskDB 9).2.1
      approvedTask rfl).2.1,
   ((C4_reject_revoke_semantics sampleClock approvedTaskDB 9).2.1
      approvedTask rfl).2.2.1⟩

theorem build_state_children (c : Clock) (db : DB) :
    (build_state c db).1.children =
      (sortChildren (build_state c db).2.children).map
        (childStateFor ((build_state c db).2.instances.filter
          fun t => t.date == c.today)) := by
  unfold build_state
  cases hs : (ensure_today_initialized c db).settings with
  | none => simp [get_settings, hs]
  | some s => simp [get_settings, hs]

theorem childStateFor_unlocked_iff (todays : List DailyTaskInstance)
    (child : Child) :
    ((childStateFor todays child).unlocked = true ↔
      ∀ t ∈ todays, t.child_id = child.id → t.required = true →
        t.state = "APPROVED") := by
  unfold childStateFor
  dsimp only
  rw [beq_iff_eq, eq_comm, countP_conj_eq_iff]
  constructor
  · intro h t ht hcid hreq
    have htc : t ∈ sortTasks (todays.filter fun t => t.child_id == child.id) :=
      (mem_sortStable _ _ t).mpr (List.mem_filter.mpr ⟨ht, by simp [hcid]⟩)
    simpa using h t htc hreq
  · intro h t ht hreq
    have h1 := (List.mem_filter.mp ((mem_sortStable _ _ t).mp ht)).1
    have h2 := (List.mem_filter.mp ((mem_sortStable _ _ t).mp ht)).2
    simpa using h t h1 (by simpa using h2) hreq

/-- C5: Unlock invariant — in the snapshot of `build_state`, a child is
`unlocked` iff every one of that child's required instances dated today (in
the post-rollover state) is `APPROVED`; vacuously true with zero required
tasks. -/
theorem C5_unlock_invariant (c : Clock) (db : DB)
    (_hw : WellCategorized c (build_state c db).2) :
    ∀ cs ∈ (build_state c db).1.children,
      (cs.unlocked = true ↔
        ∀ t ∈ (build_state c db).2.instances, t.date = c.today →
          t.child_id = cs.id → t.required = true → t.state = "APPROVED") := by
  intro cs hcs
  rw [build_state_children c db] at hcs
  obtain ⟨child, hchild, rfl⟩ := List.mem_map.mp hcs
  rw [childStateFor_unlocked_iff]
  constructor
  · intro h t ht hdate hcid hreq
    exact h t (List.mem_filter.mpr ⟨ht, by simp [hdate]⟩) hcid hreq
  · intro h t ht hcid hreq
    have h1 := (List.mem_filter.mp ht).1
    have h2 := (List.mem_filter.mp ht).2
    exact h t h1 (by simpa using h2) hcid hreq

/-- DB for the C5 witness: child 1 has its sole required task approved
(hence unlocked), child 2 has an open required task (hence locked). -/
def unlockDB : DB :=
  { children := [sampleChild1, sampleChild2],
    templates := [mathTemplate, dishesTemplate],
    instances :=
      [ { id := 1, date := "2026-01-05", child_id := 1,
          category := "SCHOOLWORK", title := "Math", required := true,
          reward_text := none, sort_order := 1, state := "APPROVED",
          claimed_at := some 10, approved_at := some 20 },
        { id := 2, date := "2026-01-05", child_id := 2,
          category := "SCHOOLWORK", title := "Math", required := true,
          reward_text := none, sort_order := 1, state := "OPEN",
          claimed_at := none, approved_at := none } ],
    settings := some settingsDoneToday, next_child_id := 3,
    next_template_id := 3, next_instance_id := 3 }

/-- Witness for C5 on `unlockDB`: the snapshot marks child 1 unlocked, and
the theorem turns that into the all-required-approved fact for child 1. -/
theorem C5_unlock_invariant_witness :
    WellCategorized sampleClock (build_state sampleClock unlockDB).2 ∧
    ((build_state sampleClock unlockDB).1.children.map
      (fun cs => (cs.id, cs.unlocked))) = [(1, true), (2, false)] ∧
    ∀ cs ∈ (build_state sampleClock unlockDB).1.children,
      (cs.unlocked = true ↔
        ∀ t ∈ (build_state sampleClock unlockDB).2.instances,
          t.date = sampleClock.today → t.child_id = cs.id →
          t.required = true → t.state = "APPROVED") :=
  ⟨by unfold WellCategorized; decide, by decide,
   C5_unlock_invariant sampleClock unlockDB (by unfold WellCategorized; decide)⟩

/-- Required tasks of a child for today, counted over the instance table. -/
def requiredTotalFor (db : DB) (c : Clock) (cid : Nat) : Nat :=
  db.instances.countP fun t =>
    t.date == c.today && t.child_id == cid && t.required

/-- Approved required tasks of a child for today, counted over the instance
table. -/
def requiredApprovedFor (db : DB) (c : Clock) (cid : Nat) : Nat :=
  db.instances.countP fun t =>
    t.date == c.today && t.child_id == cid && t.required &&
      t.state == "APPROVED"

theorem countP_today_child (l : List DailyTaskInstance) (c : Clock)
    (cid : Nat) (p : DailyTaskInstance → Bool) :
    ((l.filter fun t => t.date == c.today).filter
      fun t => t.child_id == cid).countP p =
      l.countP fun t => (t.date == c.today) && (t.child_id == cid) && p t := by
  rw [List.countP_filter, List.countP_filter]
  refine List.countP_congr fun t _ => ?_
  cases hd : (t.date == c.today) <;> cases hc : (t.child_id == cid) <;>
    cases hp : p t <;> simp [hd, hc, hp]

theorem childStateFor_percent (todays : List DailyTaskInstance)
    (child : Child) :
    (childStateFor todays child).percent_complete =
      pyFloatPercent
        ((todays.filter fun t => t.child_id == child.id).countP
          fun t => t.required && t.state == "APPROVED")
        ((todays.filter fun t => t.child_id == child.id).countP
          fun t => t.required) := by
  unfold childStateFor sortTasks
  dsimp only
  rw [countP_sortStable, countP_sortStable]

/-- C6 (amended): in the snapshot, `percent_complete` is computed over
required tasks only — it equals the Python float evaluation
`int(float(required_approved / required_total) * 100)` of the required
counts (modelled exactly by `pyFloatPercent`), and equals 0 when the child
has no required task today.  The float evaluation coincides with the exact
integer truncation `required_approved * 100 / required_total` on most but
not all inputs — see the counterexample at 29/50. -/
theorem C6_percent_required_float (c : Clock) (db : DB)
    (_hw : WellCategorized c (build_state c db).2) :
    ∀ cs ∈ (build_state c db).1.children,
      cs.percent_complete =
        pyFloatPercent (requiredApprovedFor (build_state c db).2 c cs.id)
          (requiredTotalFor (build_state c db).2 c cs.id) ∧
      (requiredTotalFor (build_state c db).2 c cs.id = 0 →
        cs.percent_complete = 0) := by
  intro cs hcs
  rw [build_state_children c db] at hcs
  obtain ⟨child, hchild, rfl⟩ := List.mem_map.mp hcs
  have hid : (childStateFor ((build_state c db).2.instances.filter
      fun t => t.date == c.today) child).id = child.id := rfl
  rw [hid]
  have hpc := childStateFor_percent
    ((build_state c db).2.instances.filter fun t => t.date == c.today) child
  have hra : (((build_state c db).2.instances.filter
        fun t => t.date == c.today).filter
          fun t => t.child_id == child.id).countP
        (fun t => t.required && t.state == "APPROVED") =
      requiredApprovedFor (build_state c db).2 c child.id := by
    rw [countP_today_child]
    unfold requiredApprovedFor
    refine List.countP_congr fun t _ => ?_
    cases hd : (t.date == c.today) <;> cases hc : (t.child_id == child.id) <;>
      cases hr : t.required <;> cases ha : (t.state == "APPROVED") <;>
        simp [hd, hc, hr, ha]
  have hrt : (((build_state c db).2.instances.filter
        fun t => t.date == c.today).filter
          fun t => t.child_id == child.id).countP (fun t => t.required) =
      requiredTotalFor (build_state c db).2 c child.id := by
    rw [countP_today_child]
    rfl
  refine ⟨?_, ?_⟩
  · rw [hpc, hra, hrt]
  · intro h0
    rw [hpc, hra, hrt, h0]
    rfl

/-- Rows for the C6 counterexample: 50 required tasks for child 1, of which
the first 29 are approved. -/
def percentTask (i : Nat) : DailyTaskInstance :=
  { id := i + 1, date := "2026-01-05", child_id := 1, category := "HYGIENE",
    title := "Tidy", required := true, reward_text := none,
    sort_order := (i : Int), state := if i < 29 then "APPROVED" else "OPEN",
    claimed_at := none, approved_at := none }

/-- DB exhibiting the 29-of-50 percent computation. -/
def percentDB : DB :=
  { children := [sampleChild1], templates := [mathTemplate],
    instances := (List.range 50).map percentTask,
    settings := some settingsDoneToday, next_child_id := 2,
    next_template_id := 2, next_instance_id := 51 }

/-- Counterexample for C6 as stated: with 29 of 50 required tasks approved,
the snapshot reports `percent_complete = 57` — Python's
`int((29 / 50) * 100)` — while the exact integer truncation of
`(29 / 50) * 100` is 58. -/
theorem C6_percent_counterexample :
    ((build_state sampleClock percentDB).1.children.map
      fun cs => cs.percent_complete) = [57] ∧
    requiredApprovedFor (build_state sampleClock percentDB).2 sampleClock 1 =
      29 ∧
    requiredTotalFor (build_state sampleClock percentDB).2 sampleClock 1 =
      50 ∧
    29 * 100 / 50 = 58 :=
  ⟨by decide, by decide, by decide, rfl⟩

/-- Witness for the amended C6 on the 29-of-50 state. -/
theorem C6_percent_required_float_witness :
    WellCategorized sampleClock (build_state sampleClock percentDB).2 ∧
    ∀ cs ∈ (build_state sampleClock percentDB).1.children,
      cs.percent_complete =
        pyFloatPercent
          (requiredApprovedFor (build_state sampleClock percentDB).2
            sampleClock cs.id)
          (requiredTotalFor (build_state sampleClock percentDB).2
            sampleClock cs.id) ∧
      (requiredTotalFor (build_state sampleClock percentDB).2 sampleClock
          cs.id = 0 → cs.percent_complete = 0) :=
  ⟨by unfold WellCategorized; decide,
   C6_percent_required_float sampleClock percentDB
     (by unfold WellCategorized; decide)⟩

theorem sortChildren_length (cs : List Child) :
    (sortChildren cs).length = cs.length :=
  sortStable_length _ _

theorem renumberFrom_length (l : List Child) : ∀ i,
    (renumberFrom i l).length = l.length := by
  induction l with
  | nil => intro i; rfl
  | cons ch l ih => intro i; simp [renumberFrom, ih]

/-- C7: Roster bounds — `create_child` errors and adds no child when the
roster already holds `MAX_CHILDREN`; `delete_child` errors and changes
nothing when the roster holds `MIN_CHILDREN` or fewer (or the id is
unknown); every successful create or delete lands the roster size in
`[1, 5]` (for delete given it started within the cap). -/
theorem C7_roster_bounds (c : Clock) (db : DB) (d : ChildCreateData)
    (cid : Nat) :
    (db.children.length ≥ MAX_CHILDREN →
      (create_child c db d).1.2 ≠ none ∧
      (create_child c db d).2.children = db.children) ∧
    (db.children.length ≤ MIN_CHILDREN →
      (delete_child db cid).1 ≠ none ∧ (delete_child db cid).2 = db) ∧
    ((create_child c db d).1.2 = none →
      (create_child c db d).2.children.length =
        (ensure_today_initialized c db).children.length + 1 ∧
      1 ≤ (create_child c db d).2.children.length ∧
      (create_child c db d).2.children.length ≤ MAX_CHILDREN) ∧
    ((delete_child db cid).1 = none →
      (delete_child db cid).2.children.length + 1 = db.children.length ∧
      1 ≤ (delete_child db cid).2.children.length ∧
      (db.children.length ≤ MAX_CHILDREN →
        (delete_child db cid).2.children.length ≤ MAX_CHILDREN)) := by
  refine ⟨?_, ?_, ?_, ?_⟩
  · intro h
    have hne : db.children ≠ [] := by
      intro hnil
      rw [hnil] at h
      simp [MAX_CHILDREN] at h
    have he := ensure_children_eq_of_ne_nil c db hne
    simp only [create_child]
    rw [if_pos (by rw [sortChildren_length, he]; exact h)]
    exact ⟨by simp, he⟩
  · intro h
    unfold delete_child
    cases hl : lookupChild db cid with
    | none => exact ⟨by simp, rfl⟩
    | some child =>
      rw [if_pos h]
      exact ⟨by simp, rfl⟩
  · intro herr
    simp only [create_child] at herr ⊢
    by_cases hcap :
        (sortChildren (ensure_today_initialized c db).children).length ≥
          MAX_CHILDREN
    · rw [if_pos hcap] at herr
      simp at herr
    · rw [if_neg hcap] at herr ⊢
      rw [sortChildren_length] at hcap
      by_cases hreq :
          (d.display_order.getD
            (sortChildren (ensure_today_initialized c db).children).length) < 0 ∨
          (d.display_order.getD
            (sortChildren (ensure_today_initialized c db).children).length) >
            (sortChildren (ensure_today_initialized c db).children).length
      · rw [if_pos hreq] at herr
        simp at herr
      · rw [if_neg hreq]
        simp only [List.length_append, List.length_map, List.length_cons,
          List.length_nil]
        unfold MAX_CHILDREN at hcap ⊢
        exact ⟨trivial, by omega, by omega⟩
  · intro herr
    unfold delete_child at herr ⊢
    cases hl : lookupChild db cid with
    | none =>
      rw [hl] at herr
      simp at herr
    | some child =>
      rw [hl] at herr
      by_cases hmin : db.children.length ≤ MIN_CHILDREN
      · rw [if_pos hmin] at herr
        simp at herr
      · rw [if_neg hmin] at herr ⊢
        dsimp only
        rw [renumberFrom_length, sortChildren_length]
        have hfind : db.children.find? (fun ch => ch.id == cid) = some child := hl
        have hlen := eraseFirstBy_length _ db.children child hfind
        unfold MIN_CHILDREN at hmin
        unfold MAX_CHILDREN
        omega

/-- A full roster of five children (rollover done today). -/
def fullDB : DB :=
  { children :=
      [ { id := 1, name := "A", display_order := 0 },
        { id := 2, name := "B", display_order := 1 },
        { id := 3, name := "C", display_order := 2 },
        { id := 4, name := "D", display_order := 3 },
        { id := 5, name := "E", display_order := 4 } ],
    templates := [mathTemplate], instances := [],
    settings := some settingsDoneToday, next_child_id := 6,
    next_template_id := 3, next_instance_id := 1 }

/-- A minimal roster of one child (rollover done today). -/
def oneChildDB : DB :=
  { children := [sampleChild1], templates := [mathTemplate], instances := [],
    settings := some settingsDoneToday, next_child_id := 2,
    next_template_id := 3, next_instance_id := 1 }

/-- Witness for C7: the 6th create and the last delete fail without change;
a create on a 2-child roster and a delete on the 5-child roster succeed
within bounds. -/
theorem C7_roster_bounds_witness :
    fullDB.children.length ≥ MAX_CHILDREN ∧
    ((create_child sampleClock fullDB
        { name := "Zoe", display_order := none }).1.2 ≠ none ∧
      (create_child sampleClock fullDB
        { name := "Zoe", display_order := none }).2.children =
        fullDB.children) ∧
    oneChildDB.children.length ≤ MIN_CHILDREN ∧
    ((delete_child oneChildDB 1).1 ≠ none ∧
      (delete_child oneChildDB 1).2 = oneChildDB) ∧
    (create_child sampleClock sampleDoneDB
      { name := "Zoe", display_order := none }).1.2 = none ∧
    ((create_child sampleClock sampleDoneDB
        { name := "Zoe", display_order := none }).2.children.length =
      (ensure_today_initialized sampleClock sampleDoneDB).children.length +
        1 ∧
      1 ≤ (create_child sampleClock sampleDoneDB
        { name := "Zoe", display_order := none }).2.children.length ∧
      (create_child sampleClock sampleDoneDB
        { name := "Zoe", display_order := none }).2.children.length ≤
        MAX_CHILDREN) ∧
    (delete_child fullDB 3).1 = none ∧
    ((delete_child fullDB 3).2.children.length + 1 =
      fullDB.children.length ∧
      1 ≤ (delete_child fullDB 3).2.children.length ∧
      (fullDB.children.length ≤ MAX_CHILDREN →
        (delete_child fullDB 3).2.children.length ≤ MAX_CHILDREN)) :=
  ⟨by decide,
   (C7_roster_bounds sampleClock fullDB
     { name := "Zoe", display_order := none } 1).1 (by decide),
   by decide,
   (C7_roster_bounds sampleClock oneChildDB
     { name := "Zoe", display_order := none } 1).2.1 (by decide),
   by decide,
   (C7_roster_bounds sampleClock sampleDoneDB
     { name := "Zoe", display_order := none } 1).2.2.1 (by decide),
   by decide,
   (C7_roster_bounds sampleClock fullDB
     { name := "Zoe", display_order := none } 3).2.2.2 (by decide)⟩

/-- `[0, ..., n-1]` as integers. -/
def intRange (n : Nat) : List Int := (List.range n).map Int.ofNat

/-- The display orders of the roster are exactly `{0, ..., N-1}`. -/
def denseOrders (cs : List Child) : Prop :=
  List.Perm (cs.map fun ch => ch.display_order) (intRange cs.length)

theorem natShift_range_perm (rn : Nat) : ∀ N, rn ≤ N →
    List.Perm
      ((List.range N).map (fun n => if rn ≤ n then n + 1 else n) ++ [rn])
      (List.range (N + 1)) := by
  intro N
  induction N with
  | zero =>
    intro h
    obtain rfl : rn = 0 := Nat.le_zero.mp h
    decide
  | succ N ih =>
    intro h
    rcases Nat.lt_or_ge rn (N + 1) with hlt | hge
    · have hrn : rn ≤ N := Nat.lt_succ_iff.mp hlt
      rw [List.range_succ, List.map_append]
      simp only [List.map_cons, List.map_nil, if_pos hrn]
      rw [List.append_assoc]
      have hsw : List.Perm ([N + 1] ++ [rn] : List Nat) ([rn] ++ [N + 1]) :=
        List.Perm.swap rn (N + 1) []
      refine (List.Perm.append_left _ hsw).trans ?_
      rw [← List.append_assoc, List.range_succ (n := N + 1)]
      exact List.Perm.append_right [N + 1] (ih hrn)
    · obtain rfl : rn = N + 1 := Nat.le_antisymm h hge
      have hmap : (List.range (N + 1)).map
          (fun n => if N + 1 ≤ n then n + 1 else n) = List.range (N + 1) := by
        rw [show (List.range (N + 1)).map
            (fun n => if N + 1 ≤ n then n + 1 else n) =
            (List.range (N + 1)).map id from
          List.map_congr_left fun a ha => by
            rw [if_neg (Nat.not_le.mpr (List.mem_range.mp ha))]
            rfl]
        exact List.map_id _
      rw [hmap, ← List.range_succ]

theorem intShift_map (rn : Nat) (l : List Nat) :
    (l.map Int.ofNat).map (fun o : Int => if o ≥ (rn : Int) then o + 1 else o) =
      (l.map fun n => if rn ≤ n then n + 1 else n).map Int.ofNat := by
  rw [List.map_map, List.map_map]
  refine List.map_congr_left fun a _ => ?_
  simp only [Function.comp_apply]
  by_cases hc : rn ≤ a
  · rw [if_pos (show Int.ofNat a ≥ (rn : Int) from Int.ofNat_le.mpr hc),
      if_pos hc]
    simp
  · rw [if_neg (show ¬ Int.ofNat a ≥ (rn : Int) from
        fun hx => hc (Int.ofNat_le.mp hx)), if_neg hc]

theorem dense_bump_insert (orders : List Int) (N : Nat) (r : Int)
    (hperm : List.Perm orders (intRange N)) (h0 : 0 ≤ r)
    (hN : r ≤ (N : Int)) :
    List.Perm ((orders.map fun o => if o ≥ r then o + 1 else o) ++ [r])
      (intRange (N + 1)) := by
  have hr : r = (r.toNat : Int) := (Int.toNat_of_nonneg h0).symm
  have hrn : r.toNat ≤ N := by omega
  rw [hr]
  refine List.Perm.trans
    (List.Perm.append_right [((r.toNat : Nat) : Int)] (hperm.map _)) ?_
  unfold intRange
  rw [intShift_map, show ([((r.toNat : Nat) : Int)] : List Int) =
    [r.toNat].map Int.ofNat from rfl, ← List.map_append]
  exact (natShift_range_perm r.toNat N hrn).map _

theorem renumberFrom_orders (l : List Child) : ∀ i,
    (renumberFrom i l).map (fun ch => ch.display_order) =
      (List.range' i l.length).map Int.ofNat := by
  induction l with
  | nil => intro i; rfl
  | cons ch l ih =>
    intro i
    simp only [renumberFrom, List.map_cons, List.length_cons, List.range',
      ih (i + 1)]
    rfl

theorem renumber_dense (l : List Child) :
    denseOrders (renumberFrom 0 l) := by
  unfold denseOrders intRange
  rw [renumberFrom_orders l 0, renumberFrom_length, ← List.range_eq_range']

theorem replaceFirstBy_length (p : α → Bool) (f : α → α) (l : List α) :
    (replaceFirstBy p f l).length = l.length := by
  induction l with
  | nil => rfl
  | cons a l ih =>
    by_cases h : p a <;> simp [replaceFirstBy, h, ih]

theorem map_replaceFirstBy_of_find? (p : α → Bool) (f : α → α) (g : α → β)
    (l : List α) (a0 : α) (hfind : l.find? p = some a0)
    (hg : g (f a0) = g a0) : (replaceFirstBy p f l).map g = l.map g := by
  induction l with
  | nil => simp at hfind
  | cons a l ih =>
    by_cases h : p a
    · rw [List.find?_cons_of_pos _ h] at hfind
      obtain rfl : a = a0 := Option.some.inj hfind
      simp [replaceFirstBy, h, hg]
    · rw [List.find?_cons_of_neg _ (by simp [h])] at hfind
      simp [replaceFirstBy, h, ih hfind]

theorem applyColor_display_order (ch : Child) (v : Option String) :
    (applyColor ch v).display_order = ch.display_order := by
  unfold applyColor
  repeat' split
  all_goals rfl

theorem ensure_children_eq_seed (c : Clock) (db : DB) :
    (ensure_today_initialized c db).children = (seed_data db).children := by
  simp only [ensure_today_initialized]
  rcases hs : (seed_data db).settings with _ | s <;>
    simp only [get_settings, hs] <;> split <;> rfl

theorem ensure_dense (c : Clock) (db : DB) (h : denseOrders db.children) :
    denseOrders (ensure_today_initialized c db).children := by
  by_cases hnil : db.children = []
  · rw [ensure_children_eq_seed]
    have hc : (seed_data db).children = seedChildren db.next_child_id := by
      have h1 : db.children.isEmpty = true := by simp [hnil]
      by_cases h2 : db.templates.isEmpty = true <;>
        simp [seed_data, h1, h2, hnil]
    rw [hc]
    exact List.Perm.refl _
  · rw [ensure_children_eq_of_ne_nil c db hnil]
    exact h

/-- C8: Display-order density — from a roster whose display orders form
`{0, ..., N-1}`, every successful `create_child`, `update_child` or
`delete_child` leaves the roster's display orders forming exactly
`{0, ..., N'-1}` for the new roster size `N'`. -/
theorem C8_display_order_density (c : Clock) (db : DB) (d : ChildCreateData)
    (u : ChildUpdateData) (cid : Nat) (hdense : denseOrders db.children) :
    ((create_child c db d).1.2 = none →
      denseOrders (create_child c db d).2.children) ∧
    ((update_child db cid u).1.2 = none →
      denseOrders (update_child db cid u).2.children) ∧
    ((delete_child db cid).1 = none →
      denseOrders (delete_child db cid).2.children) := by
  refine ⟨?_, ?_, ?_⟩
  · intro herr
    simp only [create_child] at herr ⊢
    by_cases hcap :
        (sortChildren (ensure_today_initialized c db).children).length ≥
          MAX_CHILDREN
    · rw [if_pos hcap] at herr
      simp at herr
    · rw [if_neg hcap] at herr ⊢
      set r := d.display_order.getD
        ((sortChildren (ensure_today_initialized c db).children).length :
          Int) with hrdef
      by_cases hreq : r < 0 ∨
          r > ((sortChildren (ensure_today_initialized c db).children).length :
            Int)
      · rw [if_pos hreq] at herr
        simp at herr
      · rw [if_neg hreq]
        have hsl := sortChildren_length (ensure_today_initialized c db).children
        rw [not_or] at hreq
        obtain ⟨h0', hN'⟩ := hreq
        have h0 : 0 ≤ r := by omega
        have hN : r ≤ ((ensure_today_initialized c db).children.length :
            Int) := by omega
        have hmap : (List.map (fun ch => ch.display_order)
            ((ensure_today_initialized c db).children.map fun ch =>
              if ch.display_order ≥ r
                then { ch with display_order := ch.display_order + 1 }
                else ch)) =
            List.map (fun o : Int => if o ≥ r then o + 1 else o)
              (List.map (fun ch => ch.display_order)
                (ensure_today_initialized c db).children) := by
          rw [List.map_map, List.map_map]
          refine List.map_congr_left fun ch _ => ?_
          simp only [Function.comp_apply]
          by_cases hb : ch.display_order ≥ r
          · simp only [if_pos hb]
          · simp only [if_neg hb]
        unfold denseOrders
        simp only [List.length_append, List.length_map, List.length_cons,
          List.length_nil, List.map_append, List.map_cons, List.map_nil]
        rw [hmap]
        exact dense_bump_insert _ _ _ (ensure_dense c db hdense) h0 hN
  · intro herr
    unfold update_child at herr ⊢
    cases hl : lookupChild db cid with
    | none => simp [hl] at herr
    | some child0 =>
      try rw [hl] at herr
      try rw [hl]
      dsimp only at herr ⊢
      cases hu : u.display_order with
      | some new_order =>
        try rw [hu] at herr
        try rw [hu]
        dsimp only at herr ⊢
        by_cases hrange : new_order < 0 ∨
            new_order ≥ ((sortChildren db.children).length : Int)
        · rw [if_pos hrange] at herr
          simp at herr
        · rw [if_neg hrange]
          dsimp only
          exact renumber_dense _
      | none =>
        try rw [hu]
        dsimp only
        unfold denseOrders
        rw [map_replaceFirstBy_of_find? _ _ _ db.children child0 hl ?_,
          replaceFirstBy_length]
        · exact hdense
        · rw [applyColor_display_order]
          cases u.name <;> rfl
  · intro herr
    unfold delete_child at herr ⊢
    cases hl : lookupChild db cid with
    | none => simp [hl] at herr
    | some child =>
      try rw [hl] at herr
      try rw [hl]
      by_cases hmin : db.children.length ≤ MIN_CHILDREN
      · rw [if_pos hmin] at herr
        simp at herr
      · rw [if_neg hmin]
        dsimp only
        exact renumber_dense _

/-- Witness for C8 at concrete rosters: a successful create at position 1, a
successful reposition to 0, and a successful delete all keep the orders
dense. -/
theorem C8_display_order_density_witness :
    denseOrders sampleDoneDB.children ∧
    denseOrders fullDB.children ∧
    ((create_child sampleClock sampleDoneDB
        { name := "Zoe", display_order := some 1 }).1.2 = none ∧
      denseOrders (create_child sampleClock sampleDoneDB
        { name := "Zoe", display_order := some 1 }).2.children) ∧
    ((update_child sampleDoneDB 2
        { display_order := some 0 }).1.2 = none ∧
      denseOrders (update_child sampleDoneDB 2
        { display_order := some 0 }).2.children) ∧
    ((delete_child fullDB 3).1 = none ∧
      denseOrders (delete_child fullDB 3).2.children) :=
  ⟨List.Perm.refl _, List.Perm.refl _,
   ⟨by decide,
    (C8_display_order_density sampleClock sampleDoneDB
      { name := "Zoe", display_order := some 1 } { display_order := some 0 }
      2 (List.Perm.refl _)).1 (by decide)⟩,
   ⟨by decide,
    (C8_display_order_density sampleClock sampleDoneDB
      { name := "Zoe", display_order := some 1 } { display_order := some 0 }
      2 (List.Perm.refl _)).2.1 (by decide)⟩,
   ⟨by decide,
    (C8_display_order_density sampleClock fullDB
      { name := "Zoe", display_order := some 1 } { display_order := some 0 }
      3 (List.Perm.refl _)).2.2 (by decide)⟩⟩

/-- C9 (amended): Error atomicity — every modelled operation that returns a
structured error commits nothing: the database after the failed call equals
the database before it.  The one exception the counterexample exhibits is
`create_child`, whose idempotent rollover pre-step commits before the
capacity check; when that pre-step is a no-op (settings row present with
`last_reset_date` = today, roster and templates nonempty), `create_child`'s
error paths also leave the state unchanged. -/
theorem C9_error_atomicity (c : Clock) (db : DB) (d : ChildCreateData)
    (u : ChildUpdateData) (td : TaskUpdateData) (tp : TemplateUpdateData)
    (cid tid : Nat) :
    ((update_child db cid u).1.2 ≠ none → (update_child db cid u).2 = db) ∧
    ((delete_child db cid).1 ≠ none → (delete_child db cid).2 = db) ∧
    ((claim_task c db cid tid).1 ≠ none →
      (claim_task c db cid tid).2 = db) ∧
    ((unclaim_task db cid tid).1 ≠ none →
      (unclaim_task db cid tid).2 = db) ∧
    ((approve_task c db tid).1 ≠ none → (approve_task c db tid).2 = db) ∧
    ((reject_task db tid).1 ≠ none → (reject_task db tid).2 = db) ∧
    ((revoke_task db tid).1 ≠ none → (revoke_task db tid).2 = db) ∧
    ((update_today_task db tid td).1 ≠ none →
      (update_today_task db tid td).2 = db) ∧
    ((delete_today_task db tid).1 ≠ none →
      (delete_today_task db tid).2 = db) ∧
    ((update_template_task db tid tp).1 ≠ none →
      (update_template_task db tid tp).2 = db) ∧
    ((delete_template_task db tid).1 ≠ none →
      (delete_template_task db tid).2 = db) ∧
    (rolloverDone c db → db.children ≠ [] → db.templates ≠ [] →
      (create_child c db d).1.2 ≠ none → (create_child c db d).2 = db) := by
  refine ⟨?_, ?_, ?_, ?_, ?_, ?_, ?_, ?_, ?_, ?_, ?_, ?_⟩
  · intro herr
    unfold update_child at herr ⊢
    cases hl : lookupChild db cid with
    | none =>
      try rw [hl]
      rfl
    | some child0 =>
      try rw [hl] at herr
      try rw [hl]
      dsimp only at herr ⊢
      cases hu : u.display_order with
      | some new_order =>
        try rw [hu] at herr
        try rw [hu]
        dsimp only at herr ⊢
        by_cases hrange : new_order < 0 ∨
            new_order ≥ ((sortChildren db.children).length : Int)
        · rw [if_pos hrange]
        · rw [if_neg hrange] at herr
          exact absurd rfl herr
      | none =>
        try rw [hu] at herr
        exact absurd rfl herr
  · intro herr
    unfold delete_child at herr ⊢
    cases hl : lookupChild db cid with
    | none =>
      try rw [hl]
      rfl
    | some child =>
      try rw [hl] at herr
      try rw [hl]
      by_cases hmin : db.children.length ≤ MIN_CHILDREN
      · rw [if_pos hmin]
      · rw [if_neg hmin] at herr
        exact absurd rfl herr
  · intro herr
    unfold claim_task at herr ⊢
    cases hl : lookupInstance db tid with
    | none =>
      try rw [hl]
      rfl
    | some t0 =>
      try rw [hl] at herr
      try rw [hl]
      dsimp only at herr ⊢
      by_cases hc : t0.child_id ≠ cid
      · rw [if_pos hc]
      · rw [if_neg hc] at herr ⊢
        by_cases ha : t0.state = "APPROVED"
        · rw [if_pos ha]
        · rw [if_neg ha] at herr ⊢
          by_cases ho : t0.state = "OPEN"
          · rw [if_pos ho] at herr
            exact absurd rfl herr
          · rw [if_neg ho] at herr
            exact absurd rfl herr
  · intro herr
    unfold unclaim_task at herr ⊢
    cases hl : lookupInstance db tid with
    | none =>
      try rw [hl]
      rfl
    | some t0 =>
      try rw [hl] at herr
      try rw [hl]
      dsimp only at herr ⊢
      by_cases hc : t0.child_id ≠ cid
      · rw [if_pos hc]
      · rw [if_neg hc] at herr ⊢
        by_cases hp : t0.state = "PENDING"
        · rw [if_pos hp] at herr
          exact absurd rfl herr
        · rw [if_neg hp] at herr
          exact absurd rfl herr
  · intro herr
    unfold approve_task at herr ⊢
    cases hl : lookupInstance db tid with
    | none =>
      try rw [hl]
      rfl
    | some t0 =>
      try rw [hl] at herr
      exact absurd rfl herr
  · intro herr
    unfold reject_task at herr ⊢
    cases hl : lookupInstance db tid with
    | none =>
      try rw [hl]
      rfl
    | some t0 =>
      try rw [hl] at herr
      exact absurd rfl herr
  · intro herr
    unfold revoke_task at herr ⊢
    cases hl : lookupInstance db tid with
    | none =>
      try rw [hl]
      rfl
    | some t0 =>
      try rw [hl] at herr
      exact absurd rfl herr
  · intro herr
    unfold update_today_task at herr ⊢
    cases hl : lookupInstance db tid with
    | none =>
      try rw [hl]
      rfl
    | some t0 =>
      try rw [hl] at herr
      exact absurd rfl herr
  · intro herr
    unfold delete_today_task at herr ⊢
    cases hl : lookupInstance db tid with
    | none =>
      try rw [hl]
      rfl
    | some t0 =>
      try rw [hl] at herr
      exact absurd rfl herr
  · intro herr
    unfold update_template_task at herr ⊢
    cases hl : lookupTemplate db tid with
    | none =>
      try rw [hl]
      rfl
    | some t0 =>
      try rw [hl] at herr
      exact absurd rfl herr
  · intro herr
    unfold delete_template_task at herr ⊢
    cases hl : lookupTemplate db tid with
    | none =>
      try rw [hl]
      rfl
    | some t0 =>
      try rw [hl] at herr
      exact absurd rfl herr
  · intro hdone h1 h2 herr
    have he := ensure_eq_self_of_done c db hdone h1 h2
    simp only [create_child, he] at herr ⊢
    by_cases hcap : (sortChildren db.children).length ≥ MAX_CHILDREN
    · rw [if_pos hcap]
    · rw [if_neg hcap] at herr ⊢
      by_cases hreq : (d.display_order.getD
          ((sortChildren db.children).length : Int)) < 0 ∨
          (d.display_order.getD ((sortChildren db.children).length : Int)) >
            ((sortChildren db.children).length : Int)
      · rw [if_pos hreq]
      · rw [if_neg hreq] at herr
        exact absurd rfl herr

/-- A full roster on a stale day: the rollover is still pending. -/
def staleFullDB : DB :=
  { children := fullDB.children, templates := [mathTemplate], instances := [],
    settings := some settingsYesterday, next_child_id := 6,
    next_template_id := 3, next_instance_id := 1 }

/-- Counterexample for C9 as stated: `create_child` on a full roster on a
fresh day returns the capacity error, yet the stored state has changed — the
rollover pre-step committed new instances and a new `last_reset_date`. -/
theorem C9_error_atomicity_counterexample :
    (create_child sampleClock staleFullDB
      { name := "Zoe", display_order := none }).1.2 ≠ none ∧
    (create_child sampleClock staleFullDB
      { name := "Zoe", display_order := none }).2 ≠ staleFullDB ∧
    (create_child sampleClock staleFullDB
      { name := "Zoe", display_order := none }).2.instances.length = 5 :=
  ⟨by decide, by decide, by decide⟩

/-- Witness for the amended C9: an unknown-id update and an at-capacity
create (with the rollover already done) error without any state change. -/
theorem C9_error_atomicity_witness :
    (update_child sampleDoneDB 99 { name := some "X" }).1.2 ≠ none ∧
    (update_child sampleDoneDB 99 { name := some "X" }).2 = sampleDoneDB ∧
    rolloverDone sampleClock fullDB ∧
    (create_child sampleClock fullDB
      { name := "Zoe", display_order := none }).1.2 ≠ none ∧
    (create_child sampleClock fullDB
      { name := "Zoe", display_order := none }).2 = fullDB :=
  ⟨by decide,
   (C9_error_atomicity sampleClock sampleDoneDB
     { name := "Zoe", display_order := none } { name := some "X" } {} {} 99
     1).1 (by decide),
   ⟨settingsDoneToday, rfl, rfl⟩,
   by decide,
   (C9_error_atomicity sampleClock fullDB
     { name := "Zoe", display_order := none } { name := some "X" } {} {} 1
     1).2.2.2.2.2.2.2.2.2.2.2 ⟨settingsDoneToday, rfl, rfl⟩ (by decide)
     (by decide) (by decide)⟩

end App

namespace Kiosk

/-- The minutes balance a child's wallet holds (0 when no wallet row exists
yet). -/
def walletBalance (k : KioskDB) (cid : Nat) : Int :=
  match get_wallet k cid with
  | some w => w.minutes_balance
  | none => 0

theorem spend_minutes_balance (k : KioskDB) (cid : Nat) (m : Int) :
    (spend_minutes k cid m).1.minutes_balance =
      max (walletBalance k cid - m) 0 := by
  unfold spend_minutes get_or_create_wallet walletBalance
  cases hw : get_wallet k cid <;> rfl

theorem spend_minutes_wallets_nonneg (k : KioskDB) (cid : Nat) (m : Int)
    (h : ∀ w ∈ k.wallets, 0 ≤ w.minutes_balance) :
    ∀ w ∈ (spend_minutes k cid m).2.wallets, 0 ≤ w.minutes_balance := by
  intro w hw
  unfold spend_minutes get_or_create_wallet putWallet at hw
  cases hget : get_wallet k cid with
  | some w0 =>
    try rw [hget] at hw
    dsimp only at hw
    rcases App.mem_replaceFirstBy _ _ k.wallets w hw with h1 | ⟨a, ha, hpa, rfl⟩
    · exact h w h1
    · exact le_max_right _ _
  | none =>
    try rw [hget] at hw
    dsimp only at hw
    rcases App.mem_replaceFirstBy _ _ _ w hw with h1 | ⟨a, ha, hpa, rfl⟩
    · rcases List.mem_append.mp h1 with h2 | h2
      · exact h w h2
      · rcases List.mem_singleton.mp h2 with rfl
        exact le_refl 0
    · exact le_max_right _ _

theorem add_money_minutes_nonneg (k : KioskDB) (cid : Nat) (cents : Int)
    (h : ∀ w ∈ k.wallets, 0 ≤ w.minutes_balance) :
    ∀ w ∈ (add_money k cid cents).2.wallets, 0 ≤ w.minutes_balance := by
  intro w hw
  unfold add_money get_or_create_wallet putWallet at hw
  cases hget : get_wallet k cid with
  | some w0 =>
    try rw [hget] at hw
    dsimp only at hw
    have hmem : w0 ∈ k.wallets := by
      have hget' : k.wallets.find? (fun x => x.child_id == cid) = some w0 := hget
      exact List.mem_of_find?_eq_some hget'
    rcases App.mem_replaceFirstBy _ _ k.wallets w hw with h1 | ⟨a, ha, hpa, rfl⟩
    · exact h w h1
    · exact h w0 hmem
  | none =>
    try rw [hget] at hw
    dsimp only at hw
    rcases App.mem_replaceFirstBy _ _ _ w hw with h1 | ⟨a, ha, hpa, rfl⟩
    · rcases List.mem_append.mp h1 with h2 | h2
      · exact h w h2
      · rcases List.mem_singleton.mp h2 with rfl
        exact le_refl 0
    · exact le_refl 0

/-- C10: `spend_minutes` clamps at zero — the wallet's new balance is
`max(previous - requested, 0)`, hence never negative, and exactly 0 when
spending at least the held balance; wallet stores with non-negative minutes
stay non-negative across `spend_minutes` and `request_cashout`. -/
theorem C10_wallet_clamp (k : KioskDB) (cid : Nat) (m : Int) :
    ((spend_minutes k cid m).1.minutes_balance =
      max (walletBalance k cid - m) 0) ∧
    (0 ≤ (spend_minutes k cid m).1.minutes_balance) ∧
    (walletBalance k cid ≤ m →
      (spend_minutes k cid m).1.minutes_balance = 0) ∧
    ((∀ w ∈ k.wallets, 0 ≤ w.minutes_balance) →
      ∀ w ∈ (spend_minutes k cid m).2.wallets, 0 ≤ w.minutes_balance) ∧
    ((∀ w ∈ k.wallets, 0 ≤ w.minutes_balance) →
      ∀ t kdb, request_cashout k cid m = Except.ok (t, kdb) →
        ∀ w ∈ kdb.wallets, 0 ≤ w.minutes_balance) := by
  refine ⟨spend_minutes_balance k cid m, ?_, ?_,
    spend_minutes_wallets_nonneg k cid m, ?_⟩
  · rw [spend_minutes_balance]
    exact le_max_right _ _
  · intro hle
    rw [spend_minutes_balance]
    exact max_eq_right (by omega)
  · intro h t kdb hok w hw
    unfold request_cashout at hok
    cases hs : k.settings with
    | none =>
      try rw [hs] at hok
      exact Except.noConfusion hok
    | some s =>
      try rw [hs] at hok
      dsimp only at hok
      have hpair := Except.ok.inj hok
      cases hpair
      exact add_money_minutes_nonneg _ cid _
        (spend_minutes_wallets_nonneg k cid m h) w hw

/-- A wallet of 30 minutes for child 1. -/
def wallet30 : Wallet :=
  { id := 1, child_id := 1, minutes_balance := 30, money_balance_cents := 0 }

/-- Kiosk store holding `wallet30`. -/
def kioskDB : KioskDB :=
  { wallets := [wallet30], transactions := [],
    settings := some { daily_minute_cap := 120, exchange_rate_cents := 25 },
    next_wallet_id := 2, next_transaction_id := 1 }

/-- Witness for C10: spending 50 of 30 held minutes clamps the balance to
exactly 0 and keeps every stored balance non-negative. -/
theorem C10_wallet_clamp_witness :
    (spend_minutes kioskDB 1 50).1.minutes_balance =
      max (walletBalance kioskDB 1 - 50) 0 ∧
    0 ≤ (spend_minutes kioskDB 1 50).1.minutes_balance ∧
    walletBalance kioskDB 1 ≤ 50 ∧
    (spend_minutes kioskDB 1 50).1.minutes_balance = 0 ∧
    (∀ w ∈ kioskDB.wallets, 0 ≤ w.minutes_balance) ∧
    ∀ w ∈ (spend_minutes kioskDB 1 50).2.wallets, 0 ≤ w.minutes_balance :=
  ⟨(C10_wallet_clamp kioskDB 1 50).1, (C10_wallet_clamp kioskDB 1 50).2.1,
   by decide, (C10_wallet_clamp kioskDB 1 50).2.2.1 (by decide),
   by decide, (C10_wallet_clamp kioskDB 1 50).2.2.2.1 (by decide)⟩

end Kiosk

